import Mathlib

/-
Verification of the shark-pup tracker's flat-file record store and
aggregation engine (src/data_manager.py, src/models.py), as a shallow
embedding in Lean 4.

Numbers are modelled as rationals (all arithmetic appearing in the claims
is exact in binary floating point at the probed inputs, and the source
performs no rounding). Python dynamic values that can flow through the
store are modelled by the type Val; records as loaded by the from_dict
deserializers are modelled by typed structures reflecting the field types
those deserializers establish. File-backed state is modelled as the
decoded collection list; a mutation that performs no write returns the
input list unchanged.
-/

namespace SharkTracker

/-- Python error kinds relevant to the data manager's exception handling. -/
inductive PyErr where
  | fileNotFound
  | jsonDecode
  | keyError (k : String)
  | typeError
  | valueError
  deriving DecidableEq, Repr

/-- Dynamic Python value as it can appear in a record field reached by the
store's update paths: None, a number, or a string. -/
inductive Val where
  | none
  | num (q : ℚ)
  | str (s : String)
  deriving DecidableEq, Repr

/-- Python equality on dynamic values: None equals None, numbers compare by
value, strings by content, and values of different kinds are unequal
(so 1 == "1" is False). -/
def pyEq : Val → Val → Bool
  | .none, .none => true
  | .num a, .num b => a == b
  | .str a, .str b => a == b
  | _, _ => false

/-- Python truthiness for dynamic values: None, 0 and "" are falsy. -/
def truthy : Val → Bool
  | .none => false
  | .num q => q != 0
  | .str s => s != ""

/-- Python max over a list with a default for the empty case, as in
max(xs, default=0). -/
def pyMax (l : List ℤ) (d : ℤ) : ℤ :=
  match l with
  | [] => d
  | x :: xs => xs.foldl max x

/-- Python min over a nonempty list of rationals (0 for the empty list,
which the call sites never hit). -/
def pyListMin (l : List ℚ) : ℚ :=
  match l with
  | [] => 0
  | x :: xs => xs.foldl min x

/-- Python max over a nonempty list of rationals (0 for the empty list,
which the call sites never hit). -/
def pyListMax (l : List ℚ) : ℚ :=
  match l with
  | [] => 0
  | x :: xs => xs.foldl max x

/-- Numeric value of a list of decimal digit characters. -/
def digitsVal (cs : List Char) : ℕ :=
  cs.foldl (fun n c => 10 * n + (c.toNat - 48)) 0

/-- Python float(s) on plain decimal literals: optional sign, an integer
part and/or a fractional part. Other shapes raise ValueError. -/
def parseFloat (s : String) : Except PyErr ℚ :=
  let cs := s.trim.toList
  let signed : ℚ × List Char :=
    match cs with
    | '-' :: r => (-1, r)
    | '+' :: r => (1, r)
    | r => (1, r)
  let intPart := signed.2.takeWhile Char.isDigit
  let rest := signed.2.dropWhile Char.isDigit
  match rest with
  | [] =>
    if intPart.isEmpty then .error .valueError
    else .ok (signed.1 * digitsVal intPart)
  | '.' :: frac =>
    let fracPart := frac.takeWhile Char.isDigit
    let rest2 := frac.dropWhile Char.isDigit
    if rest2.isEmpty && !(intPart.isEmpty && fracPart.isEmpty) then
      .ok (signed.1 * ((digitsVal intPart : ℚ) +
        (digitsVal fracPart : ℚ) / (10 : ℚ) ^ fracPart.length))
    else .error .valueError
  | _ => .error .valueError

/-- Python int(s) on decimal literals: optional sign then digits only. -/
def parseInt (s : String) : Except PyErr ℤ :=
  let cs := s.trim.toList
  let signed : ℤ × List Char :=
    match cs with
    | '-' :: r => (-1, r)
    | '+' :: r => (1, r)
    | r => (1, r)
  if !signed.2.isEmpty && signed.2.all Char.isDigit then
    .ok (signed.1 * digitsVal signed.2)
  else .error .valueError

/-- Calendar date with the Gregorian rules datetime.strptime validates. -/
structure Date where
  y : ℕ
  m : ℕ
  d : ℕ
  deriving DecidableEq, Repr

/-- Gregorian leap-year test. -/
def isLeap (y : ℕ) : Bool :=
  y % 4 == 0 && (y % 100 != 0 || y % 400 == 0)

/-- Number of days in a month. -/
def daysInMonth (y m : ℕ) : ℕ :=
  if m == 2 then (if isLeap y then 29 else 28)
  else if m == 4 || m == 6 || m == 9 || m == 11 then 30
  else 31

/-- Split a character list on the dash separator, keeping empty groups,
matching how the %Y-%m-%d pattern tokenizes the date string. -/
def splitDashes : List Char → List (List Char)
  | [] => [[]]
  | '-' :: rest => [] :: splitDashes rest
  | c :: rest =>
    match splitDashes rest with
    | [] => [[c]]
    | g :: gs => (c :: g) :: gs

/-- Date parsing in the %Y-%m-%d format used throughout the source:
exactly four year digits, one or two month and day digits, with Gregorian
range validation, as datetime.strptime performs. -/
def parseDate (s : String) : Option Date :=
  match splitDashes s.toList with
  | [ys, ms, ds] =>
    if !ys.isEmpty && ys.all Char.isDigit && ys.length == 4 &&
       !ms.isEmpty && ms.all Char.isDigit && ms.length ≤ 2 &&
       !ds.isEmpty && ds.all Char.isDigit && ds.length ≤ 2 then
      let y := digitsVal ys
      let m := digitsVal ms
      let d := digitsVal ds
      if 1 ≤ y && 1 ≤ m && m ≤ 12 && 1 ≤ d && d ≤ daysInMonth y m then
        Option.some ⟨y, m, d⟩
      else Option.none
    else Option.none
  | _ => Option.none

/-- Days in the months of year y strictly before month m. -/
def daysBeforeMonth (y m : ℕ) : ℕ :=
  (List.range m).foldl (fun acc i => if 1 ≤ i then acc + daysInMonth y i else acc) 0

/-- Proleptic Gregorian ordinal day of a date, so that differences of
ordinals equal the day differences datetime subtraction yields. -/
def ordinalDay (dt : Date) : ℤ :=
  365 * ((dt.y : ℤ) - 1) +
    (((dt.y - 1) / 4 : ℕ) : ℤ) - (((dt.y - 1) / 100 : ℕ) : ℤ) +
    (((dt.y - 1) / 400 : ℕ) : ℤ) +
    (daysBeforeMonth dt.y dt.m : ℤ) + (dt.d : ℤ)

/-- Shark pup record with the field types models.SharkPup.from_dict
establishes (lengths and weights pass through float() or stay None). -/
structure SharkPup where
  id : Option ℤ
  date : String
  name : String
  length : Option ℚ
  weight : Option ℚ
  notes : Option String
  date_of_birth : Option String
  mother_id : Option String
  sex : Option String
  researcher : Option String
  status : String
  created_at : String
  deriving DecidableEq, Repr

/-- Training record with the field types models.TrainingRecord establishes
(duration passes through int()). -/
structure TrainingRecord where
  id : Option ℤ
  pup_id : Val
  date : String
  training_type : String
  duration : ℤ
  progress : String
  notes : Option String
  researcher : Option String
  created_at : String
  deriving DecidableEq, Repr

/-- Food item embedded in a feeding session; amount passes through float()
in the models.FoodItem constructor. -/
structure FoodItem where
  food_type : String
  amount : ℚ
  notes : Option String
  deriving DecidableEq, Repr

/-- Feeding session with its embedded ordered food items. -/
structure FeedingSession where
  id : Option ℤ
  pup_id : Val
  date : String
  session_notes : Option String
  feeding_time : String
  food_items : List FoodItem
  researcher : Option String
  created_at : String
  deriving DecidableEq, Repr

/-- Legacy single-item feeding record. -/
structure FeedingRecord where
  id : Option ℤ
  pup_id : Val
  date : String
  food_type : String
  amount : ℚ
  notes : Option String
  created_at : String
  deriving DecidableEq, Repr

/-- Measurement record with the field types
models.MeasurementRecord.from_dict establishes; ids of measurements are
strings (DataManager.add_measurement assigns str(max_id + 1)). -/
structure MeasurementRecord where
  id : Option String
  pup_id : Val
  date : String
  weight : Option ℚ
  length : Option ℚ
  notes : Option String
  created_at : String
  deriving DecidableEq, Repr

/-- Python expression p.id or 0 used in the max-id computation: None (and
the falsy id 0) become 0. -/
def idOr0 : Option ℤ → ℤ
  | Option.none => 0
  | Option.some n => n

/-- Id assigned by the add operations of the integer-id collections:
1 + max(ids with None as 0, default 0). -/
def nextId (ids : List (Option ℤ)) : ℤ :=
  pyMax (ids.map idOr0) 0 + 1

/-- DataManager.add_pup: assign the next id and append, persisting the
whole collection. -/
def add_pup (pups : List SharkPup) (p : SharkPup) : SharkPup × List SharkPup :=
  let p' := { p with id := Option.some (nextId (pups.map (·.id))) }
  (p', pups ++ [p'])

/-- DataManager.add_feeding_record: assign the next id and append. -/
def add_feeding_record (records : List FeedingRecord) (r : FeedingRecord) :
    FeedingRecord × List FeedingRecord :=
  let r' := { r with id := Option.some (nextId (records.map (·.id))) }
  (r', records ++ [r'])

/-- DataManager.add_training_record: assign the next id and append. -/
def add_training_record (records : List TrainingRecord) (r : TrainingRecord) :
    TrainingRecord × List TrainingRecord :=
  let r' := { r with id := Option.some (nextId (records.map (·.id))) }
  (r', records ++ [r'])

/-- DataManager.add_feeding_session: assign the next id and append. -/
def add_feeding_session (sessions : List FeedingSession) (s : FeedingSession) :
    FeedingSession × List FeedingSession :=
  let s' := { s with id := Option.some (nextId (sessions.map (·.id))) }
  (s', sessions ++ [s'])

/-- Keys DataManager.update_pup recognizes in its updated_data mapping. -/
inductive PupKey where
  | kdate | kname | klength | kweight | knotes | kdate_of_birth
  | kmother_id | kstatus | ksex
  deriving DecidableEq, Repr

/-- Form-style update mapping for a pup: present keys carry the raw string
value supplied by the caller (the boundary passes request.form strings). -/
def PupUpd := PupKey → Option String

/-- Conditional verbatim assignment: pup.f = updated_data[k] when the key
is present, keeping the prior value otherwise. -/
def assignStr (cur : String) (o : Option String) : String :=
  match o with
  | Option.some v => v
  | Option.none => cur

/-- Conditional verbatim assignment into an optional field (the notes
assignment): a supplied blank string is stored as a blank string, not
normalized to None. -/
def assignNotes (cur : Option String) (o : Option String) : Option String :=
  match o with
  | Option.some v => Option.some v
  | Option.none => cur

/-- Conditional assignment with blank-string normalization, the
updated_data[k] if updated_data[k] != else None pattern of update_pup
for date_of_birth, mother_id and sex. -/
def assignOptNorm (cur : Option String) (o : Option String) : Option String :=
  match o with
  | Option.some v => if v = "" then Option.none else Option.some v
  | Option.none => cur

/-- Conditional assignment with float conversion and blank normalization,
the float(updated_data[k]) if updated_data[k] != else None pattern of
update_pup for length and weight; float() on a non-literal raises. -/
def assignFloat (cur : Option ℚ) (o : Option String) : Except PyErr (Option ℚ) :=
  match o with
  | Option.some v =>
    if v = "" then .ok Option.none else (parseFloat v).map Option.some
  | Option.none => .ok cur

/-- Field assignments of DataManager.update_pup: each recognized key
present in updated_data is assigned to its field (the fields are pairwise
distinct, so the sequence of in-place assignments equals this simultaneous
record update); length and weight raise first, in source order, when their
float() conversion fails, and the catch-all in update_pup converts that
into a no-write failure. -/
def applyPupUpdate (p : SharkPup) (u : PupUpd) : Except PyErr SharkPup := do
  let len ← assignFloat p.length (u .klength)
  let wt ← assignFloat p.weight (u .kweight)
  pure { p with
      date := assignStr p.date (u .kdate)
      name := assignStr p.name (u .kname)
      length := len
      weight := wt
      notes := assignNotes p.notes (u .knotes)
      date_of_birth := assignOptNorm p.date_of_birth (u .kdate_of_birth)
      mother_id := assignOptNorm p.mother_id (u .kmother_id)
      status := assignStr p.status (u .kstatus)
      sex := assignOptNorm p.sex (u .ksex) }

/-- DataManager.update_pup: find the first pup whose id equals pup_id,
rewrite it in place and persist; on no match, or on a failing field
conversion, nothing is written and None is returned. -/
def update_pup : List SharkPup → Option ℤ → PupUpd →
    Option SharkPup × List SharkPup
  | [], _, _ => (Option.none, [])
  | p :: rest, pid, u =>
    if p.id = pid then
      match applyPupUpdate p u with
      | .ok p' => (Option.some p', p' :: rest)
      | .error _ => (Option.none, p :: rest)
    else
      let res := update_pup rest pid u
      (res.1, p :: res.2)

/-- Keys DataManager.update_training_record recognizes. -/
inductive TKey where
  | tdate | ttraining_type | tduration | tprogress | tnotes
  deriving DecidableEq, Repr

/-- Form-style update mapping for a training record. -/
def TUpd := TKey → Option String

/-- Field assignments of DataManager.update_training_record: recognized
present keys are assigned to their pairwise distinct fields; duration
passes through int(), whose failure the catch-all turns into a no-write
failure. -/
def applyTrainingUpdate (r : TrainingRecord) (u : TUpd) :
    Except PyErr TrainingRecord := do
  let dur ← match u .tduration with
    | Option.some v => parseInt v
    | Option.none => .ok r.duration
  pure { r with
      date := assignStr r.date (u .tdate)
      training_type := assignStr r.training_type (u .ttraining_type)
      duration := dur
      progress := assignStr r.progress (u .tprogress)
      notes := assignNotes r.notes (u .tnotes) }

/-- DataManager.update_training_record: remove the first record whose id
equals record_id from the list, apply the updates, append the result at
the end and persist; on no match, or on a failing conversion, nothing is
written and None is returned. -/
def update_training_record : List TrainingRecord → Option ℤ → TUpd →
    Option TrainingRecord × List TrainingRecord
  | [], _, _ => (Option.none, [])
  | r :: rest, rid, u =>
    if r.id = rid then
      match applyTrainingUpdate r u with
      | .ok r' => (Option.some r', rest ++ [r'])
      | .error _ => (Option.none, r :: rest)
    else
      let res := update_training_record rest rid u
      (res.1, r :: res.2)

/-- Update payload DataManager.update_feeding_session recognizes; when
food_items is present the session's item list is rebuilt from it. -/
structure SessionUpd where
  date : Option String
  session_notes : Option String
  feeding_time : Option String
  food_items : Option (List FoodItem)
  deriving Repr

/-- Field assignments of DataManager.update_feeding_session. -/
def applySessionUpdate (s : FeedingSession) (u : SessionUpd) : FeedingSession :=
  let s := match u.date with
    | Option.some v => { s with date := v }
    | Option.none => s
  let s := match u.session_notes with
    | Option.some v => { s with session_notes := Option.some v }
    | Option.none => s
  let s := match u.feeding_time with
    | Option.some v => { s with feeding_time := v }
    | Option.none => s
  match u.food_items with
  | Option.some items => { s with food_items := items }
  | Option.none => s

/-- DataManager.update_feeding_session: remove the first session whose id
equals session_id, apply the updates, append the result at the end and
persist; on no match nothing is written and None is returned. -/
def update_feeding_session : List FeedingSession → Option ℤ → SessionUpd →
    Option FeedingSession × List FeedingSession
  | [], _, _ => (Option.none, [])
  | s :: rest, sid, u =>
    if s.id = sid then
      let s' := applySessionUpdate s u
      (Option.some s', rest ++ [s'])
    else
      let res := update_feeding_session rest sid u
      (res.1, s :: res.2)

/-- Measurement record at the raw attribute level, as
DataManager.update_measurement manipulates it with setattr: every field
holds a dynamic value. -/
structure MeasurementObj where
  id : Val
  pup_id : Val
  date : Val
  weight : Val
  length : Val
  notes : Val
  created_at : Val
  deriving DecidableEq, Repr

/-- Attribute names of a measurement record. -/
inductive MKey where
  | kid | kpup_id | kdate | kweight | klength | knotes | kcreated_at
  deriving DecidableEq, Repr

/-- Python setattr on a measurement record: the supplied value is assigned
verbatim, with no conversion and no blank-string normalization. -/
def setAttr (m : MeasurementObj) (k : MKey) (v : Val) : MeasurementObj :=
  match k with
  | .kid => { m with id := v }
  | .kpup_id => { m with pup_id := v }
  | .kdate => { m with date := v }
  | .kweight => { m with weight := v }
  | .klength => { m with length := v }
  | .knotes => { m with notes := v }
  | .kcreated_at => { m with created_at := v }

/-- Attribute read used to state frame properties about setattr. -/
def getAttr (m : MeasurementObj) (k : MKey) : Val :=
  match k with
  | .kid => m.id
  | .kpup_id => m.pup_id
  | .kdate => m.date
  | .kweight => m.weight
  | .klength => m.length
  | .knotes => m.notes
  | .kcreated_at => m.created_at

/-- Loop of DataManager.update_measurement over updated_data.items(). -/
def applyMeasUpdates (m : MeasurementObj) (upd : List (MKey × Val)) :
    MeasurementObj :=
  upd.foldl (fun m kv => setAttr m kv.1 kv.2) m

/-- DataManager.update_measurement: find the first measurement whose id
equals measurement_id under Python equality, setattr each supplied pair
verbatim, persist; on no match nothing is written and None is returned. -/
def update_measurement : List MeasurementObj → Val → List (MKey × Val) →
    Option MeasurementObj × List MeasurementObj
  | [], _, _ => (Option.none, [])
  | m :: rest, mid, upd =>
    if pyEq m.id mid then
      let m' := applyMeasUpdates m upd
      (Option.some m', m' :: rest)
    else
      let res := update_measurement rest mid upd
      (res.1, m :: res.2)

/-- Python str() of a stored integer id; str(None) is the string None. -/
def strOfOptInt : Option ℤ → String
  | Option.none => "None"
  | Option.some n => toString n

/-- Python str() of a queried id value; the ids this system assigns are
integers or decimal strings. -/
def strOfVal : Val → String
  | .none => "None"
  | .num q => if q.den = 1 then toString q.num else toString q
  | .str s => s

/-- Python equality between a stored integer id and a queried dynamic id:
ints compare by value, an int never equals a string, None only equals
None. -/
def idEqVal : Option ℤ → Val → Bool
  | Option.none, .none => true
  | Option.some n, .num q => q == (n : ℚ)
  | _, _ => false

/-- Python equality between a stored string id and a queried dynamic id. -/
def strIdEqVal : Option String → Val → Bool
  | Option.none, .none => true
  | Option.some s, .str t => s == t
  | _, _ => false

/-- DataManager.get_pup_by_id: linear scan comparing str(pup.id) with
str(pup_id). -/
def get_pup_by_id (pups : List SharkPup) (pid : Val) : Option SharkPup :=
  pups.find? (fun p => strOfOptInt p.id == strOfVal pid)

/-- DataManager.get_training_record_by_id: linear scan with plain Python
equality on ids. -/
def get_training_record_by_id (records : List TrainingRecord) (rid : Val) :
    Option TrainingRecord :=
  records.find? (fun r => idEqVal r.id rid)

/-- DataManager.get_feeding_session_by_id: linear scan with plain Python
equality on ids. -/
def get_feeding_session_by_id (sessions : List FeedingSession) (sid : Val) :
    Option FeedingSession :=
  sessions.find? (fun s => idEqVal s.id sid)

/-- DataManager.get_measurement_by_id: linear scan with plain Python
equality on the string-typed measurement ids. -/
def get_measurement_by_id (ms : List MeasurementRecord) (mid : Val) :
    Option MeasurementRecord :=
  ms.find? (fun m => strIdEqVal m.id mid)

/-- JSON value as decoded by json.load. -/
inductive J where
  | null
  | num (q : ℚ)
  | str (s : String)
  | bool (b : Bool)
  | arr (xs : List J)
  | obj (fields : List (String × J))

/-- Dictionary lookup returning the first binding, as for a Python dict
with unique keys. -/
def jget (fields : List (String × J)) (k : String) : Option J :=
  (fields.find? (fun e => e.1 = k)).map (·.2)

/-- Subscription data[k]: KeyError when the key is missing. -/
def jreq (fields : List (String × J)) (k : String) : Except PyErr J :=
  match jget fields k with
  | Option.some v => .ok v
  | Option.none => .error (.keyError k)

/-- Required string field; the embedding restricts the value shapes of
well-formed records to the ones the system itself writes. -/
def jStr : J → Except PyErr String
  | .str s => .ok s
  | _ => .error .typeError

/-- Optional string field fetched with dict.get. -/
def jOptStr : Option J → Except PyErr (Option String)
  | Option.none => .ok Option.none
  | Option.some .null => .ok Option.none
  | Option.some (.str s) => .ok (Option.some s)
  | Option.some _ => .error .typeError

/-- Python float(x) if x is not None else None on an optional field:
numbers pass through, strings are parsed, booleans count as 1 or 0, and
other shapes raise TypeError. -/
def jOptFloat : Option J → Except PyErr (Option ℚ)
  | Option.none => .ok Option.none
  | Option.some .null => .ok Option.none
  | Option.some (.num q) => .ok (Option.some q)
  | Option.some (.str s) => (parseFloat s).map Option.some
  | Option.some (.bool b) => .ok (Option.some (if b then 1 else 0))
  | Option.some _ => .error .typeError

/-- Stored dynamic id value (int, string or null). -/
def jIdVal : J → Except PyErr Val
  | .null => .ok .none
  | .num q => .ok (.num q)
  | .str s => .ok (.str s)
  | _ => .error .typeError

/-- Stored integer-or-null id. -/
def jOptInt : J → Except PyErr (Option ℤ)
  | .null => .ok Option.none
  | .num q => if q.den = 1 then .ok (Option.some q.num) else .error .typeError
  | _ => .error .typeError

/-- Stored string-or-null id. -/
def jOptStrId : J → Except PyErr (Option String)
  | .null => .ok Option.none
  | .str s => .ok (Option.some s)
  | _ => .error .typeError

/-- models.MeasurementRecord.from_dict: subscription of the required keys
pup_id, date, id and created_at raises KeyError when one is missing;
weight and length are fetched with dict.get and pass through float() when
not None; calling it on a non-dict raises TypeError. -/
def MeasurementRecord.fromDict : J → Except PyErr MeasurementRecord
  | .obj fields => do
    let pid ← jIdVal (← jreq fields "pup_id")
    let date ← jStr (← jreq fields "date")
    let weight ← jOptFloat (jget fields "weight")
    let length ← jOptFloat (jget fields "length")
    let notes ← jOptStr (jget fields "notes")
    let id ← jOptStrId (← jreq fields "id")
    let cre ← jStr (← jreq fields "created_at")
    pure ⟨id, pid, date, weight, length, notes, cre⟩
  | _ => .error .typeError

/-- models.SharkPup.from_dict: date, name, id and created_at are required
subscriptions, the rest are dict.get with length and weight passing
through float(); status defaults to live when absent. -/
def SharkPup.fromDict : J → Except PyErr SharkPup
  | .obj fields => do
    let date ← jStr (← jreq fields "date")
    let name ← jStr (← jreq fields "name")
    let length ← jOptFloat (jget fields "length")
    let weight ← jOptFloat (jget fields "weight")
    let notes ← jOptStr (jget fields "notes")
    let dob ← jOptStr (jget fields "date_of_birth")
    let mid ← jOptStr (jget fields "mother_id")
    let sex ← jOptStr (jget fields "sex")
    let res ← jOptStr (jget fields "researcher")
    let status ← match jget fields "status" with
      | Option.none => pure "live"
      | Option.some v => jStr v
    let id ← jOptInt (← jreq fields "id")
    let cre ← jStr (← jreq fields "created_at")
    pure ⟨id, date, name, length, weight, notes, dob, mid, sex, res, status, cre⟩
  | _ => .error .typeError

/-- Observable state of a backing collection file: absent, present but not
valid JSON, or decodable to a JSON value. -/
inductive FileRead where
  | missing
  | badJSON
  | json (j : J)

/-- Opening and json.load-ing the backing file: a missing file raises
FileNotFoundError, undecodable content raises JSONDecodeError. -/
def decodeFile : FileRead → Except PyErr J
  | .missing => .error .fileNotFound
  | .badJSON => .error .jsonDecode
  | .json j => .ok j

/-- Iteration of the decoded value with from_dict applied to each element;
iterating a non-sequence raises TypeError, and iterating a dict or a
string feeds each key or character to from_dict, which raises TypeError
on the first one. -/
def rowsFromJ (fromDict : J → Except PyErr α) : J → Except PyErr (List α)
  | .arr items => items.mapM fromDict
  | .obj fields => fields.mapM (fun _ => (.error .typeError : Except PyErr α))
  | .str s => s.toList.mapM (fun _ => (.error .typeError : Except PyErr α))
  | _ => .error .typeError

/-- DataManager.get_all_pups: the whole read is wrapped in a catch-all
that degrades any failure to the empty list. -/
def get_all_pups (f : FileRead) : Except PyErr (List SharkPup) :=
  match decodeFile f >>= rowsFromJ SharkPup.fromDict with
  | .ok l => .ok l
  | .error _ => .ok []

/-- DataManager.get_all_measurements: only FileNotFoundError and
json.JSONDecodeError are caught and degraded to the empty list; any other
failure propagates to the caller. -/
def get_all_measurements (f : FileRead) : Except PyErr (List MeasurementRecord) :=
  match decodeFile f >>= rowsFromJ MeasurementRecord.fromDict with
  | .ok l => .ok l
  | .error .fileNotFound => .ok []
  | .error .jsonDecode => .ok []
  | .error e => .error e

/-- Required float field: float(x) on a present, non-None value; float()
of None or of a structured value raises TypeError. -/
def jFloat : J → Except PyErr ℚ
  | .num q => .ok q
  | .str s => parseFloat s
  | .bool b => .ok (if b then 1 else 0)
  | _ => .error .typeError

/-- Required int field: int(x) on a present value; int() truncates a float
toward zero, parses a decimal string, and raises on None or structures. -/
def jInt : J → Except PyErr ℤ
  | .num q => .ok (q.num.tdiv q.den)
  | .str s => parseInt s
  | .bool b => .ok (if b then 1 else 0)
  | _ => .error .typeError

/-- models.FeedingRecord.from_dict: pup_id, date, food_type, amount, id
and created_at are required subscriptions; amount passes through float()
in the constructor; notes is fetched with dict.get. -/
def FeedingRecord.fromDict : J → Except PyErr FeedingRecord
  | .obj fields => do
    let pid ← jIdVal (← jreq fields "pup_id")
    let date ← jStr (← jreq fields "date")
    let ft ← jStr (← jreq fields "food_type")
    let amount ← jFloat (← jreq fields "amount")
    let notes ← jOptStr (jget fields "notes")
    let id ← jOptInt (← jreq fields "id")
    let cre ← jStr (← jreq fields "created_at")
    pure ⟨id, pid, date, ft, amount, notes, cre⟩
  | _ => .error .typeError

/-- models.TrainingRecord.from_dict: pup_id, date, training_type,
duration, progress, id and created_at are required; duration passes
through int() in the constructor; notes and researcher use dict.get. -/
def TrainingRecord.fromDict : J → Except PyErr TrainingRecord
  | .obj fields => do
    let pid ← jIdVal (← jreq fields "pup_id")
    let date ← jStr (← jreq fields "date")
    let tt ← jStr (← jreq fields "training_type")
    let dur ← jInt (← jreq fields "duration")
    let prog ← jStr (← jreq fields "progress")
    let notes ← jOptStr (jget fields "notes")
    let res ← jOptStr (jget fields "researcher")
    let id ← jOptInt (← jreq fields "id")
    let cre ← jStr (← jreq fields "created_at")
    pure ⟨id, pid, date, tt, dur, prog, notes, res, cre⟩
  | _ => .error .typeError

/-- models.FoodItem.from_dict: food_type and amount are required, amount
passes through float(); notes uses dict.get. -/
def FoodItem.fromDict : J → Except PyErr FoodItem
  | .obj fields => do
    let ft ← jStr (← jreq fields "food_type")
    let amount ← jFloat (← jreq fields "amount")
    let notes ← jOptStr (jget fields "notes")
    pure ⟨ft, amount, notes⟩
  | _ => .error .typeError

/-- Iteration of data.get(food_items, []) with FoodItem.from_dict applied
to each element; an absent key yields no items, a non-sequence raises. -/
def jFoodItems : Option J → Except PyErr (List FoodItem)
  | Option.none => .ok []
  | Option.some (.arr xs) => xs.mapM FoodItem.fromDict
  | Option.some (.obj fields) =>
    fields.mapM (fun _ => (.error .typeError : Except PyErr FoodItem))
  | Option.some (.str s) =>
    s.toList.mapM (fun _ => (.error .typeError : Except PyErr FoodItem))
  | Option.some _ => .error .typeError

/-- models.FeedingSession.from_dict: pup_id, date, id and created_at are
required; session_notes, feeding_time (default AM) and researcher use
dict.get; food items are rebuilt from the embedded list. -/
def FeedingSession.fromDict : J → Except PyErr FeedingSession
  | .obj fields => do
    let pid ← jIdVal (← jreq fields "pup_id")
    let date ← jStr (← jreq fields "date")
    let notes ← jOptStr (jget fields "session_notes")
    let ft ← match jget fields "feeding_time" with
      | Option.none => pure "AM"
      | Option.some v => jStr v
    let res ← jOptStr (jget fields "researcher")
    let id ← jOptInt (← jreq fields "id")
    let cre ← jStr (← jreq fields "created_at")
    let items ← jFoodItems (jget fields "food_items")
    pure ⟨id, pid, date, notes, ft, items, res, cre⟩
  | _ => .error .typeError

/-- DataManager.get_all_feeding_records: catch-all that degrades any
failure to the empty list. -/
def get_all_feeding_records (f : FileRead) : Except PyErr (List FeedingRecord) :=
  match decodeFile f >>= rowsFromJ FeedingRecord.fromDict with
  | .ok l => .ok l
  | .error _ => .ok []

/-- DataManager.get_all_training_records: catch-all that degrades any
failure to the empty list. -/
def get_all_training_records (f : FileRead) : Except PyErr (List TrainingRecord) :=
  match decodeFile f >>= rowsFromJ TrainingRecord.fromDict with
  | .ok l => .ok l
  | .error _ => .ok []

/-- DataManager.get_all_feeding_sessions: catch-all that degrades any
failure to the empty list. -/
def get_all_feeding_sessions (f : FileRead) : Except PyErr (List FeedingSession) :=
  match decodeFile f >>= rowsFromJ FeedingSession.fromDict with
  | .ok l => .ok l
  | .error _ => .ok []

/-- DataManager.get_feeding_records_by_pup_id: linear filter by plain
Python equality on the foreign key. -/
def get_feeding_records_by_pup_id (rs : List FeedingRecord) (pid : Val) :
    List FeedingRecord :=
  rs.filter (fun r => pyEq r.pup_id pid)

/-- DataManager.get_training_records_by_pup_id: linear filter by plain
Python equality on the foreign key. -/
def get_training_records_by_pup_id (rs : List TrainingRecord) (pid : Val) :
    List TrainingRecord :=
  rs.filter (fun r => pyEq r.pup_id pid)

/-- DataManager.get_feeding_sessions_by_pup_id: linear filter by plain
Python equality on the foreign key. -/
def get_feeding_sessions_by_pup_id (ss : List FeedingSession) (pid : Val) :
    List FeedingSession :=
  ss.filter (fun s => pyEq s.pup_id pid)

/-- DataManager.delete_training_record: filter out the matching id and
persist only when the collection shrank, returning whether it did. -/
def delete_training_record (rs : List TrainingRecord) (rid : Option ℤ) :
    Bool × List TrainingRecord :=
  let remaining := rs.filter (fun r => r.id ≠ rid)
  if remaining.length < rs.length then (true, remaining) else (false, rs)

/-- DataManager.delete_feeding_session: filter out the matching id and
persist only when the collection shrank, returning whether it did. -/
def delete_feeding_session (ss : List FeedingSession) (sid : Option ℤ) :
    Bool × List FeedingSession :=
  let remaining := ss.filter (fun s => s.id ≠ sid)
  if remaining.length < ss.length then (true, remaining) else (false, ss)

/-- add_pup as invoked against a file state: the collection is read by the
catch-all loader, then appended and persisted. -/
def add_pup_file (f : FileRead) (p : SharkPup) :
    Except PyErr (SharkPup × List SharkPup) :=
  (get_all_pups f).map (fun ps => add_pup ps p)

/-- add_feeding_record against a file state. -/
def add_feeding_record_file (f : FileRead) (r : FeedingRecord) :
    Except PyErr (FeedingRecord × List FeedingRecord) :=
  (get_all_feeding_records f).map (fun rs => add_feeding_record rs r)

/-- add_training_record against a file state. -/
def add_training_record_file (f : FileRead) (r : TrainingRecord) :
    Except PyErr (TrainingRecord × List TrainingRecord) :=
  (get_all_training_records f).map (fun rs => add_training_record rs r)

/-- add_feeding_session against a file state. -/
def add_feeding_session_file (f : FileRead) (s : FeedingSession) :
    Except PyErr (FeedingSession × List FeedingSession) :=
  (get_all_feeding_sessions f).map (fun ss => add_feeding_session ss s)

/-- get_pup_by_id against a file state. -/
def get_pup_by_id_file (f : FileRead) (pid : Val) :
    Except PyErr (Option SharkPup) :=
  (get_all_pups f).map (fun ps => get_pup_by_id ps pid)

/-- get_training_record_by_id against a file state. -/
def get_training_record_by_id_file (f : FileRead) (rid : Val) :
    Except PyErr (Option TrainingRecord) :=
  (get_all_training_records f).map (fun rs => get_training_record_by_id rs rid)

/-- get_feeding_session_by_id against a file state. -/
def get_feeding_session_by_id_file (f : FileRead) (sid : Val) :
    Except PyErr (Option FeedingSession) :=
  (get_all_feeding_sessions f).map (fun ss => get_feeding_session_by_id ss sid)

/-- get_feeding_records_by_pup_id against a file state. -/
def get_feeding_records_by_pup_id_file (f : FileRead) (pid : Val) :
    Except PyErr (List FeedingRecord) :=
  (get_all_feeding_records f).map (fun rs => get_feeding_records_by_pup_id rs pid)

/-- get_training_records_by_pup_id against a file state. -/
def get_training_records_by_pup_id_file (f : FileRead) (pid : Val) :
    Except PyErr (List TrainingRecord) :=
  (get_all_training_records f).map (fun rs => get_training_records_by_pup_id rs pid)

/-- get_feeding_sessions_by_pup_id against a file state. -/
def get_feeding_sessions_by_pup_id_file (f : FileRead) (pid : Val) :
    Except PyErr (List FeedingSession) :=
  (get_all_feeding_sessions f).map (fun ss => get_feeding_sessions_by_pup_id ss pid)

/-- update_pup against a file state. -/
def update_pup_file (f : FileRead) (pid : Option ℤ) (u : PupUpd) :
    Except PyErr (Option SharkPup × List SharkPup) :=
  (get_all_pups f).map (fun ps => update_pup ps pid u)

/-- update_training_record against a file state. -/
def update_training_record_file (f : FileRead) (rid : Option ℤ) (u : TUpd) :
    Except PyErr (Option TrainingRecord × List TrainingRecord) :=
  (get_all_training_records f).map (fun rs => update_training_record rs rid u)

/-- update_feeding_session against a file state. -/
def update_feeding_session_file (f : FileRead) (sid : Option ℤ) (u : SessionUpd) :
    Except PyErr (Option FeedingSession × List FeedingSession) :=
  (get_all_feeding_sessions f).map (fun ss => update_feeding_session ss sid u)

/-- delete_training_record against a file state. -/
def delete_training_record_file (f : FileRead) (rid : Option ℤ) :
    Except PyErr (Bool × List TrainingRecord) :=
  (get_all_training_records f).map (fun rs => delete_training_record rs rid)

/-- delete_feeding_session against a file state. -/
def delete_feeding_session_file (f : FileRead) (sid : Option ℤ) :
    Except PyErr (Bool × List FeedingSession) :=
  (get_all_feeding_sessions f).map (fun ss => delete_feeding_session ss sid)

/-- Per-mother tallies of DataManager.calculate_statistics. -/
structure MotherStat where
  total : ℕ
  live : ℕ
  stillborn : ℕ
  deriving DecidableEq, Repr

/-- Grouping key for the per-mother breakdown: a missing or blank
mother_id falls in the Unknown bucket. -/
def motherKey (p : SharkPup) : String :=
  match p.mother_id with
  | Option.some s => if s = "" then "Unknown" else s
  | Option.none => "Unknown"

/-- One loop iteration of the mother_stats accumulation. -/
def bumpMother (d : List (String × MotherStat)) (k : String) (status : String) :
    List (String × MotherStat) :=
  let d' := if d.any (fun e => e.1 = k) then d else d ++ [(k, ⟨0, 0, 0⟩)]
  d'.map (fun e =>
    if e.1 = k then
      (e.1, ⟨e.2.total + 1,
             if status = "live" then e.2.live + 1 else e.2.live,
             if status = "stillborn" then e.2.stillborn + 1 else e.2.stillborn⟩)
    else e)

/-- Result shape of DataManager.calculate_statistics. -/
structure PupStats where
  count : ℕ
  live_count : ℕ
  stillborn_count : ℕ
  avg_length : ℚ
  avg_weight : ℚ
  min_length : ℚ
  max_length : ℚ
  min_weight : ℚ
  max_weight : ℚ
  mother_stats : List (String × MotherStat)
  deriving DecidableEq, Repr

/-- DataManager.calculate_statistics: null lengths and weights are
filtered out before the average, min and max; counts are partitioned by
status; the mother table is accumulated in insertion order. -/
def calculate_statistics (pups : List SharkPup) : PupStats :=
  if pups.isEmpty then ⟨0, 0, 0, 0, 0, 0, 0, 0, 0, []⟩
  else
    let lengths := pups.filterMap (·.length)
    let weights := pups.filterMap (·.weight)
    let live := (pups.filter (fun p => p.status = "live")).length
    let still := (pups.filter (fun p => p.status = "stillborn")).length
    let mstats := pups.foldl (fun d p => bumpMother d (motherKey p) p.status) []
    ⟨pups.length, live, still,
     if lengths.isEmpty then 0 else lengths.sum / lengths.length,
     if weights.isEmpty then 0 else weights.sum / weights.length,
     if lengths.isEmpty then 0 else pyListMin lengths,
     if lengths.isEmpty then 0 else pyListMax lengths,
     if weights.isEmpty then 0 else pyListMin weights,
     if weights.isEmpty then 0 else pyListMax weights,
     mstats⟩

/-- Monthly accumulator bucket of DataManager.get_monthly_data. -/
structure Bucket where
  count : ℕ
  total_length : ℚ
  total_weight : ℚ
  deriving DecidableEq, Repr

/-- Chart label for a month: the year unpadded, the month zero-padded to
two digits, as the f-string in get_monthly_data formats it. -/
def monthKey (dt : Date) : String :=
  toString dt.y ++ "-" ++ (if dt.m < 10 then "0" ++ toString dt.m else toString dt.m)

/-- Add the month's bucket if it is not present yet. -/
def ensureMonth (md : List (String × Bucket)) (k : String) :
    List (String × Bucket) :=
  if md.any (fun e => e.1 = k) then md else md ++ [(k, ⟨0, 0, 0⟩)]

/-- Point update of one month's bucket. -/
def mapAt (md : List (String × Bucket)) (k : String) (f : Bucket → Bucket) :
    List (String × Bucket) :=
  md.map (fun e => if e.1 = k then (e.1, f e.2) else e)

/-- Per-pup loop body of DataManager.get_monthly_data, with Python's
exception flow made explicit: mutations performed before the raising
statement persist. A date that fails to parse leaves the table untouched;
a None length raises on the length addition, after the count increment;
a None weight raises on the weight addition, after the length addition. -/
def monthlyStep (md : List (String × Bucket)) (p : SharkPup) :
    List (String × Bucket) :=
  match parseDate p.date with
  | Option.none => md
  | Option.some dt =>
    let k := monthKey dt
    let md1 := mapAt (ensureMonth md k) k (fun b => { b with count := b.count + 1 })
    match p.length with
    | Option.none => md1
    | Option.some len =>
      let md2 := mapAt md1 k (fun b => { b with total_length := b.total_length + len })
      match p.weight with
      | Option.none => md2
      | Option.some w => mapAt md2 k (fun b => { b with total_weight := b.total_weight + w })

/-- Result shape of DataManager.get_monthly_data: parallel lists sorted by
month label. -/
structure MonthlyData where
  labels : List String
  counts : List ℕ
  avg_lengths : List ℚ
  avg_weights : List ℚ
  deriving DecidableEq, Repr

/-- DataManager.get_monthly_data: fold the per-pup step over the pups,
then emit the buckets sorted by month label with per-bucket averages that
divide by the bucket count. -/
def get_monthly_data (pups : List SharkPup) : MonthlyData :=
  let md := pups.foldl monthlyStep []
  let keys := List.insertionSort (fun a b : String => a ≤ b) (md.map (·.1))
  let bucketOf : String → Bucket := fun k =>
    ((md.find? (fun e => e.1 = k)).map (·.2)).getD ⟨0, 0, 0⟩
  ⟨keys,
   keys.map (fun k => (bucketOf k).count),
   keys.map (fun k =>
     let b := bucketOf k
     if 0 < b.count then b.total_length / (b.count : ℚ) else 0),
   keys.map (fun k =>
     let b := bucketOf k
     if 0 < b.count then b.total_weight / (b.count : ℚ) else 0)⟩

/-- One dict update of the food_type_amounts accumulation: add the amount
to an existing food type or append a new binding at the end. -/
def addAmount (d : List (String × ℚ)) (t : String) (a : ℚ) :
    List (String × ℚ) :=
  if d.any (fun e => e.1 = t) then
    d.map (fun e => if e.1 = t then (e.1, e.2 + a) else e)
  else d ++ [(t, a)]

/-- Per-food-type summed amounts over all sessions, in first-encounter
order, as get_feeding_statistics accumulates them. -/
def foodTypeAmounts (sessions : List FeedingSession) : List (String × ℚ) :=
  sessions.foldl
    (fun d s => s.food_items.foldl (fun d it => addAmount d it.food_type it.amount) d) []

/-- Flat list of every food item amount across the sessions, in iteration
order. -/
def allAmounts (sessions : List FeedingSession) : List ℚ :=
  (sessions.map (fun s => s.food_items.map (·.amount))).flatten

/-- Selection loop for most_common_food: walk the summed-amount table
keeping the first entry strictly greater than everything seen so far,
starting from the sentinel None with amount 0. -/
def pickMostCommon : String → ℚ → List (String × ℚ) → String
  | best, _, [] => best
  | best, mx, (t, a) :: rest =>
    if mx < a then pickMostCommon t a rest else pickMostCommon best mx rest

/-- Result shape of DataManager.get_feeding_statistics (the food_types and
chart payloads are both derived from the summed-amount table, kept here
once). -/
structure FeedingStats where
  total_records : ℕ
  food_types : List (String × ℚ)
  avg_amount : ℚ
  max_amount : ℚ
  min_amount : ℚ
  most_common_food : String
  deriving DecidableEq, Repr

/-- DataManager.get_feeding_statistics over an already-chosen session list
(the optional pup_id scoping picks the list first; the claims quantify
over the chosen list). -/
def get_feeding_statistics (sessions : List FeedingSession) : FeedingStats :=
  if sessions.isEmpty then ⟨0, [], 0, 0, 0, "None"⟩
  else
    let amounts := allAmounts sessions
    let d := foodTypeAmounts sessions
    ⟨amounts.length, d,
     if amounts.isEmpty then 0 else amounts.sum / amounts.length,
     if amounts.isEmpty then 0 else pyListMax amounts,
     if amounts.isEmpty then 0 else pyListMin amounts,
     pickMostCommon "None" 0 d⟩

/-- Per-field statistics block of DataManager.get_growth_statistics. -/
structure FieldStats where
  min : Option ℚ
  max : Option ℚ
  avg : Option ℚ
  growth_rate : Option ℚ
  deriving DecidableEq, Repr

/-- Endpoint computation of the growth rate over the date-sorted list of
measurements carrying the field: parse the first and last dates and divide
the value difference by the day span when it is positive; a parse failure
or a non-positive span leaves the rate None (the try/except of the source
keeps any failure silent). -/
def growthRateOfSorted (sorted : List MeasurementRecord)
    (f : MeasurementRecord → Option ℚ) : Option ℚ :=
  match sorted.head?, sorted.getLast? with
  | Option.some first, Option.some last =>
    match parseDate first.date, parseDate last.date with
    | Option.some d1, Option.some d2 =>
      let days : ℤ := ordinalDay d2 - ordinalDay d1
      if 0 < days then
        Option.some (((f last).getD 0 - (f first).getD 0) / (days : ℚ))
      else Option.none
    | _, _ => Option.none
  | _, _ => Option.none

/-- Growth-rate computation of get_growth_statistics for one field: keep
the measurements whose field is non-null, sort them stably by the raw date
string, and take the rate between the endpoints. -/
def growthRate (ms : List MeasurementRecord) (f : MeasurementRecord → Option ℚ) :
    Option ℚ :=
  growthRateOfSorted
    (List.insertionSort (fun a b => a.date ≤ b.date) (ms.filter (fun m => (f m).isSome))) f

/-- Field statistics of get_growth_statistics: None throughout when no
non-null value exists; the growth rate is attempted only with at least two
non-null values. -/
def fieldStats (ms : List MeasurementRecord) (f : MeasurementRecord → Option ℚ) :
    FieldStats :=
  let vs := ms.filterMap f
  if vs.isEmpty then ⟨Option.none, Option.none, Option.none, Option.none⟩
  else
    ⟨Option.some (pyListMin vs), Option.some (pyListMax vs),
     Option.some (vs.sum / vs.length),
     if 2 ≤ vs.length then growthRate ms f else Option.none⟩

/-- Result shape of DataManager.get_growth_statistics. -/
structure GrowthStats where
  total_records : ℕ
  weight_stats : FieldStats
  length_stats : FieldStats
  deriving DecidableEq, Repr

/-- DataManager.get_growth_statistics over an already-chosen measurement
list (the optional pup_id truthiness filter picks the list first; the
claims quantify over the chosen list). -/
def get_growth_statistics (ms : List MeasurementRecord) : GrowthStats :=
  if ms.isEmpty then
    ⟨0, ⟨Option.none, Option.none, Option.none, Option.none⟩,
        ⟨Option.none, Option.none, Option.none, Option.none⟩⟩
  else ⟨ms.length, fieldStats ms (·.weight), fieldStats ms (·.length)⟩

/-- Expected id sequence 1, 2, ..., k of a gap-free collection. -/
def seqIds (k : ℕ) : List ℤ :=
  (List.range k).map (fun i => (i : ℤ) + 1)

/-- Run a sequence of add_pup calls against an initially empty file. -/
def runAddPups (inputs : List SharkPup) : List SharkPup :=
  inputs.foldl (fun st p => (add_pup st p).2) []

/-- Run a sequence of add_feeding_record calls against an empty file. -/
def runAddFeedingRecords (inputs : List FeedingRecord) : List FeedingRecord :=
  inputs.foldl (fun st r => (add_feeding_record st r).2) []

/-- Run a sequence of add_training_record calls against an empty file. -/
def runAddTrainingRecords (inputs : List TrainingRecord) : List TrainingRecord :=
  inputs.foldl (fun st r => (add_training_record st r).2) []

/-- Run a sequence of add_feeding_session calls against an empty file. -/
def runAddFeedingSessions (inputs : List FeedingSession) : List FeedingSession :=
  inputs.foldl (fun st s => (add_feeding_session st s).2) []

/-- Maximum of the summed amounts with 0 as the starting accumulator, the
reference point of the most_common_food selection loop. -/
def foldMax (l : List (String × ℚ)) (b : ℚ) : ℚ :=
  l.foldr (fun e m => max e.2 m) b

/-- First food type in table order whose summed amount equals M. -/
def firstAttain (l : List (String × ℚ)) (M : ℚ) (dflt : String) : String :=
  ((l.find? (fun e => e.2 = M)).map (·.1)).getD dflt

/-- Sample pup used by the concrete instances. -/
def samplePup : SharkPup :=
  ⟨Option.none, "2024-01-05", "alpha", Option.some 10, Option.some 100,
   Option.none, Option.none, Option.none, Option.some "Male", Option.none,
   "live", "t0"⟩

/-- Pup with a null length (and a distinct name). -/
def pupLenNone : SharkPup :=
  { samplePup with length := Option.none, name := "beta" }

/-- Pup with length 20. -/
def pupLen20 : SharkPup :=
  { samplePup with length := Option.some 20, name := "gamma" }

/-- Pup with a null weight. -/
def pupWtNone : SharkPup :=
  { samplePup with weight := Option.none, name := "epsilon" }

/-- January pup with a null length but a non-null weight, for the monthly
aggregation instance. -/
def pupJanNullLen : SharkPup :=
  { samplePup with
      date := "2024-01-10"
      length := Option.none
      weight := Option.some 60
      name := "delta" }

/-- Measurement of 1000 grams on 2024-01-01. -/
def meas1 : MeasurementRecord :=
  ⟨Option.some "1", Val.num 1, "2024-01-01", Option.some 1000, Option.none,
   Option.none, "t1"⟩

/-- Measurement of 1200 grams on 2024-01-11. -/
def meas2 : MeasurementRecord :=
  ⟨Option.some "2", Val.num 1, "2024-01-11", Option.some 1200, Option.none,
   Option.none, "t2"⟩

/-- Measurement of 1200 grams on the same date as meas1. -/
def meas2Same : MeasurementRecord := { meas2 with date := "2024-01-01" }

/-- Measurement of 100 grams on September 1st written without a zero-padded
month, a form datetime.strptime accepts. -/
def measSep : MeasurementRecord :=
  ⟨Option.some "1", Val.num 1, "2024-9-01", Option.some 100, Option.none,
   Option.none, "t6"⟩

/-- Measurement of 200 grams on October 1st. -/
def measOct : MeasurementRecord :=
  ⟨Option.some "2", Val.num 1, "2024-10-01", Option.some 200, Option.none,
   Option.none, "t7"⟩

/-- Update mapping supplying a length that float() cannot parse. -/
def pupUpdBadLen : PupUpd :=
  fun k => match k with
  | PupKey.klength => Option.some "abc"
  | _ => Option.none

/-- Update mapping supplying a duration that int() cannot parse. -/
def tUpdBadDur : TUpd :=
  fun k => match k with
  | TKey.tduration => Option.some "soon"
  | _ => Option.none

/-- Feeding session with food items A 5, B 12, A 3. -/
def sessionAB : FeedingSession :=
  ⟨Option.some 1, Val.num 1, "2024-01-01", Option.none, "AM",
   [⟨"A", 5, Option.none⟩, ⟨"B", 12, Option.none⟩, ⟨"A", 3, Option.none⟩],
   Option.none, "t3"⟩

/-- Feeding session whose only food item has amount 0. -/
def sessionZero : FeedingSession :=
  { sessionAB with food_items := [⟨"A", 0, Option.none⟩] }

/-- Training record with integer id 1. -/
def trainRec1 : TrainingRecord :=
  ⟨Option.some 1, Val.num 1, "2024-01-01", "target", 5, "Started",
   Option.none, Option.none, "t4"⟩

/-- Training record with id 2. -/
def trainRec2 : TrainingRecord :=
  { trainRec1 with id := Option.some 2, training_type := "feed" }

/-- Training record with id 3. -/
def trainRec3 : TrainingRecord :=
  { trainRec1 with id := Option.some 3 }

/-- Feeding session with id 2. -/
def sess2 : FeedingSession :=
  { sessionAB with id := Option.some 2 }

/-- Raw measurement object with string id 1 and numeric weight 5. -/
def measObj1 : MeasurementObj :=
  ⟨Val.str "1", Val.num 1, Val.str "2024-01-01", Val.num 5, Val.none,
   Val.none, Val.str "t5"⟩

/-- Update mapping supplying only a blank sex. -/
def pupUpdSexBlank : PupUpd :=
  fun k => match k with
  | PupKey.ksex => Option.some ""
  | _ => Option.none

/-- Update mapping supplying only a new name. -/
def pupUpdName : PupUpd :=
  fun k => match k with
  | PupKey.kname => Option.some "renamed"
  | _ => Option.none

/-- Update mapping supplying only a new progress status. -/
def tUpdProgress : TUpd :=
  fun k => match k with
  | TKey.tprogress => Option.some "Completed"
  | _ => Option.none

/-- Update mapping with no field present. -/
def emptyPupUpd : PupUpd := fun _ => Option.none

/-- Update mapping with no field present. -/
def emptyTUpd : TUpd := fun _ => Option.none

/-- Session update with no field present. -/
def emptySessionUpd : SessionUpd :=
  ⟨Option.none, Option.none, Option.none, Option.none⟩

/-- Pup records with ids 1, 2, 3. -/
def pupId1 : SharkPup := { samplePup with id := Option.some 1 }

/-- Pup with id 2. -/
def pupId2 : SharkPup := { samplePup with id := Option.some 2, name := "b2" }

/-- Pup with id 3. -/
def pupId3 : SharkPup := { samplePup with id := Option.some 3 }

/-- Training record 2 after the progress update. -/
def trainRec2Done : TrainingRecord := { trainRec2 with progress := "Completed" }

/-- Pup 2 after the name update. -/
def pupId2Renamed : SharkPup := { pupId2 with name := "renamed" }

/-- Session update supplying only a new date. -/
def sessUpdDate : SessionUpd :=
  ⟨Option.some "2024-02-02", Option.none, Option.none, Option.none⟩

/-- Session 2 after the date update. -/
def sess2Feb : FeedingSession := { sess2 with date := "2024-02-02" }

/-- Sample pup after the blank-sex update normalized sex to None. -/
def pupSexNone : SharkPup := { samplePup with sex := Option.none }

lemma pyMax_append_singleton (l : List ℤ) (x d : ℤ) :
    pyMax (l ++ [x]) d = if l.isEmpty then x else max (pyMax l d) x := by
  cases l with
  | nil => simp [pyMax]
  | cons y ys => simp [pyMax, List.foldl_append]

lemma seqIds_succ (k : ℕ) : seqIds (k + 1) = seqIds k ++ [(k : ℤ) + 1] := by
  simp [seqIds, List.range_succ]

lemma pyMax_seqIds (k : ℕ) : pyMax (seqIds k) 0 = k := by
  induction k with
  | zero => simp [seqIds, pyMax]
  | succ n ih =>
    rw [seqIds_succ, pyMax_append_singleton]
    by_cases h : (seqIds n).isEmpty
    · have h0 : seqIds n = [] := List.isEmpty_iff.mp h
      have hn : n = 0 := by
        by_contra hne
        have : seqIds n ≠ [] := by
          cases n with
          | zero => exact absurd rfl hne
          | succ m => rw [seqIds_succ]; exact List.append_ne_nil_of_right_ne_nil _ (by simp)
        exact this h0
      subst hn
      rw [if_pos h]
      simp
    · rw [if_neg (by simpa using h), ih]
      have : (n : ℤ) ≤ (n : ℤ) + 1 := by omega
      rw [max_eq_right this]
      push_cast
      ring

lemma nextId_seqIds (k : ℕ) (ids : List (Option ℤ))
    (h : ids = (seqIds k).map Option.some) : nextId ids = (k : ℤ) + 1 := by
  subst h
  have : ((seqIds k).map Option.some).map idOr0 = seqIds k := by
    rw [List.map_map]
    simp [Function.comp_def, idOr0]
  rw [nextId, this, pyMax_seqIds]

lemma run_ids {α : Type} (gid : α → Option ℤ) (addF : List α → α → List α)
    (hstep : ∀ st p, (addF st p).map gid =
      st.map gid ++ [Option.some (nextId (st.map gid))]) :
    ∀ (inputs : List α) (st : List α) (k : ℕ),
      st.map gid = (seqIds k).map Option.some →
      (inputs.foldl addF st).map gid = (seqIds (k + inputs.length)).map Option.some := by
  intro inputs
  induction inputs with
  | nil => intro st k h; simpa using h
  | cons p rest ih =>
    intro st k h
    have h2 : (addF st p).map gid = (seqIds (k + 1)).map Option.some := by
      rw [hstep, h, seqIds_succ, List.map_append]
      simp [nextId_seqIds k ((seqIds k).map Option.some) rfl]
    have h3 := ih (addF st p) (k + 1) h2
    have hk : k + 1 + rest.length = k + (rest.length + 1) := by omega
    rw [hk] at h3
    simpa using h3

lemma add_pup_ids (st : List SharkPup) (p : SharkPup) :
    ((add_pup st p).2).map (·.id) =
      st.map (·.id) ++ [Option.some (nextId (st.map (·.id)))] := by
  simp [add_pup]

lemma add_feeding_record_ids (st : List FeedingRecord) (r : FeedingRecord) :
    ((add_feeding_record st r).2).map (·.id) =
      st.map (·.id) ++ [Option.some (nextId (st.map (·.id)))] := by
  simp [add_feeding_record]

lemma add_training_record_ids (st : List TrainingRecord) (r : TrainingRecord) :
    ((add_training_record st r).2).map (·.id) =
      st.map (·.id) ++ [Option.some (nextId (st.map (·.id)))] := by
  simp [add_training_record]

lemma add_feeding_session_ids (st : List FeedingSession) (s : FeedingSession) :
    ((add_feeding_session st s).2).map (·.id) =
      st.map (·.id) ++ [Option.some (nextId (st.map (·.id)))] := by
  simp [add_feeding_session]

/-- C1: every sequence of n add calls against an empty collection (pups,
feeding records, training records, feeding sessions) assigns the ids
1, 2, ..., n in call order, each add computing 1 plus the maximum existing
id with default 0. -/
theorem claim_c1_sequential_ids :
    (∀ inputs : List SharkPup,
      (runAddPups inputs).map (·.id) = (seqIds inputs.length).map Option.some) ∧
    (∀ inputs : List FeedingRecord,
      (runAddFeedingRecords inputs).map (·.id) = (seqIds inputs.length).map Option.some) ∧
    (∀ inputs : List TrainingRecord,
      (runAddTrainingRecords inputs).map (·.id) = (seqIds inputs.length).map Option.some) ∧
    (∀ inputs : List FeedingSession,
      (runAddFeedingSessions inputs).map (·.id) = (seqIds inputs.length).map Option.some) ∧
    (∀ (st : List SharkPup) (p : SharkPup),
      ((add_pup st p).1).id = Option.some (pyMax ((st.map (·.id)).map idOr0) 0 + 1)) := by
  refine ⟨?_, ?_, ?_, ?_, ?_⟩
  · intro inputs
    have := run_ids (·.id) (fun st p => (add_pup st p).2) add_pup_ids inputs [] 0
      (by simp [seqIds])
    simpa [runAddPups] using this
  · intro inputs
    have := run_ids (·.id) (fun st r => (add_feeding_record st r).2)
      add_feeding_record_ids inputs [] 0 (by simp [seqIds])
    simpa [runAddFeedingRecords] using this
  · intro inputs
    have := run_ids (·.id) (fun st r => (add_training_record st r).2)
      add_training_record_ids inputs [] 0 (by simp [seqIds])
    simpa [runAddTrainingRecords] using this
  · intro inputs
    have := run_ids (·.id) (fun st s => (add_feeding_session st s).2)
      add_feeding_session_ids inputs [] 0 (by simp [seqIds])
    simpa [runAddFeedingSessions] using this
  · intro st p
    rfl

lemma update_pup_not_found (pups : List SharkPup) (pid : Option ℤ) (u : PupUpd)
    (h : ∀ p ∈ pups, p.id ≠ pid) : update_pup pups pid u = (Option.none, pups) := by
  induction pups with
  | nil => rfl
  | cons p rest ih =>
    have hp : p.id ≠ pid := h p (by simp)
    have hr := ih (fun q hq => h q (by simp [hq]))
    simp [update_pup, hp, hr]

lemma update_training_not_found (rs : List TrainingRecord) (rid : Option ℤ)
    (u : TUpd) (h : ∀ r ∈ rs, r.id ≠ rid) :
    update_training_record rs rid u = (Option.none, rs) := by
  induction rs with
  | nil => rfl
  | cons r rest ih =>
    have hp : r.id ≠ rid := h r (by simp)
    have hr := ih (fun q hq => h q (by simp [hq]))
    simp [update_training_record, hp, hr]

lemma update_session_not_found (ss : List FeedingSession) (sid : Option ℤ)
    (u : SessionUpd) (h : ∀ s ∈ ss, s.id ≠ sid) :
    update_feeding_session ss sid u = (Option.none, ss) := by
  induction ss with
  | nil => rfl
  | cons s rest ih =>
    have hp : s.id ≠ sid := h s (by simp)
    have hr := ih (fun q hq => h q (by simp [hq]))
    simp [update_feeding_session, hp, hr]

lemma update_measurement_not_found (ms : List MeasurementObj) (mid : Val)
    (upd : List (MKey × Val)) (h : ∀ m ∈ ms, pyEq m.id mid = false) :
    update_measurement ms mid upd = (Option.none, ms) := by
  induction ms with
  | nil => rfl
  | cons m rest ih =>
    have hp : pyEq m.id mid = false := h m (by simp)
    have hr := ih (fun q hq => h q (by simp [hq]))
    simp [update_measurement, hp, hr]

/-- C4: updating an id that is not present in the collection returns None
and leaves the persisted collection unchanged, for pup, training-record,
feeding-session and measurement updates. -/
theorem claim_c4_update_missing_id :
    (∀ (pups : List SharkPup) (pid : Option ℤ) (u : PupUpd),
      (∀ p ∈ pups, p.id ≠ pid) → update_pup pups pid u = (Option.none, pups)) ∧
    (∀ (rs : List TrainingRecord) (rid : Option ℤ) (u : TUpd),
      (∀ r ∈ rs, r.id ≠ rid) → update_training_record rs rid u = (Option.none, rs)) ∧
    (∀ (ss : List FeedingSession) (sid : Option ℤ) (u : SessionUpd),
      (∀ s ∈ ss, s.id ≠ sid) → update_feeding_session ss sid u = (Option.none, ss)) ∧
    (∀ (ms : List MeasurementObj) (mid : Val) (upd : List (MKey × Val)),
      (∀ m ∈ ms, pyEq m.id mid = false) → update_measurement ms mid upd = (Option.none, ms)) :=
  ⟨update_pup_not_found, update_training_not_found,
   update_session_not_found, update_measurement_not_found⟩

/-- Closed instance of claim C4 at concrete collections and an absent id. -/
theorem claim_c4_update_missing_id_witness :
    update_pup [pupId1] (Option.some 99) emptyPupUpd = (Option.none, [pupId1]) ∧
    update_training_record [trainRec1] (Option.some 99) emptyTUpd = (Option.none, [trainRec1]) ∧
    update_feeding_session [sessionAB] (Option.some 99) emptySessionUpd = (Option.none, [sessionAB]) ∧
    update_measurement [measObj1] (Val.str "99") [] = (Option.none, [measObj1]) :=
  ⟨claim_c4_update_missing_id.1 _ _ _ (by decide),
   claim_c4_update_missing_id.2.1 _ _ _ (by decide),
   claim_c4_update_missing_id.2.2.1 _ _ _ (by decide),
   claim_c4_update_missing_id.2.2.2 _ _ _ (by decide)⟩

lemma update_training_found (pre : List TrainingRecord) (r : TrainingRecord)
    (post : List TrainingRecord) (u : TUpd) (r' : TrainingRecord)
    (hpre : ∀ x ∈ pre, x.id ≠ r.id) (hok : applyTrainingUpdate r u = .ok r') :
    update_training_record (pre ++ r :: post) r.id u =
      (Option.some r', (pre ++ post) ++ [r']) := by
  induction pre with
  | nil => simp [update_training_record, hok]
  | cons x xs ih =>
    have hx : x.id ≠ r.id := hpre x (by simp)
    have ih2 := ih (fun y hy => hpre y (by simp [hy]))
    simp [update_training_record, hx, ih2]

lemma update_session_found (pre : List FeedingSession) (s : FeedingSession)
    (post : List FeedingSession) (u : SessionUpd)
    (hpre : ∀ x ∈ pre, x.id ≠ s.id) :
    update_feeding_session (pre ++ s :: post) s.id u =
      (Option.some (applySessionUpdate s u), (pre ++ post) ++ [applySessionUpdate s u]) := by
  induction pre with
  | nil => simp [update_feeding_session]
  | cons x xs ih =>
    have hx : x.id ≠ s.id := hpre x (by simp)
    have ih2 := ih (fun y hy => hpre y (by simp [hy]))
    simp [update_feeding_session, hx, ih2]

lemma update_pup_found (pre : List SharkPup) (p : SharkPup)
    (post : List SharkPup) (u : PupUpd) (p' : SharkPup)
    (hpre : ∀ x ∈ pre, x.id ≠ p.id) (hok : applyPupUpdate p u = .ok p') :
    update_pup (pre ++ p :: post) p.id u = (Option.some p', pre ++ p' :: post) := by
  induction pre with
  | nil => simp [update_pup, hok]
  | cons x xs ih =>
    have hx : x.id ≠ p.id := hpre x (by simp)
    have ih2 := ih (fun y hy => hpre y (by simp [hy]))
    simp [update_pup, hx, ih2]

/-- C9: a successful update of a training record or feeding session
removes the first matching record from its position and re-appends the
updated record at the end of the persisted collection, while a successful
pup update rewrites the matching record in place. -/
theorem claim_c9_update_moves_to_end :
    (∀ (pre : List TrainingRecord) (r : TrainingRecord) (post : List TrainingRecord)
       (u : TUpd) (r' : TrainingRecord),
      (∀ x ∈ pre, x.id ≠ r.id) → applyTrainingUpdate r u = .ok r' →
      update_training_record (pre ++ r :: post) r.id u =
        (Option.some r', (pre ++ post) ++ [r'])) ∧
    (∀ (pre : List FeedingSession) (s : FeedingSession) (post : List FeedingSession)
       (u : SessionUpd),
      (∀ x ∈ pre, x.id ≠ s.id) →
      update_feeding_session (pre ++ s :: post) s.id u =
        (Option.some (applySessionUpdate s u), (pre ++ post) ++ [applySessionUpdate s u])) ∧
    (∀ (pre : List SharkPup) (p : SharkPup) (post : List SharkPup)
       (u : PupUpd) (p' : SharkPup),
      (∀ x ∈ pre, x.id ≠ p.id) → applyPupUpdate p u = .ok p' →
      update_pup (pre ++ p :: post) p.id u = (Option.some p', pre ++ p' :: post)) :=
  ⟨update_training_found, update_session_found, update_pup_found⟩

/-- Closed instance of claim C9: the middle training record moves to the
end, the matching session moves to the end, the middle pup stays in place. -/
theorem claim_c9_update_moves_to_end_witness :
    update_training_record [trainRec1, trainRec2, trainRec3] (Option.some 2) tUpdProgress =
      (Option.some trainRec2Done, [trainRec1, trainRec3, trainRec2Done]) ∧
    update_feeding_session [sessionAB, sess2] (Option.some 2) sessUpdDate =
      (Option.some sess2Feb, [sessionAB, sess2Feb]) ∧
    update_pup [pupId1, pupId2, pupId3] (Option.some 2) pupUpdName =
      (Option.some pupId2Renamed, [pupId1, pupId2Renamed, pupId3]) :=
  ⟨claim_c9_update_moves_to_end.1 [trainRec1] trainRec2 [trainRec3] tUpdProgress
      trainRec2Done (by decide) (by rfl),
   claim_c9_update_moves_to_end.2.1 [sessionAB] sess2 [] sessUpdDate (by decide),
   claim_c9_update_moves_to_end.2.2 [pupId1] pupId2 [pupId3] pupUpdName
      pupId2Renamed (by decide) (by rfl)⟩

/-- C10: in get_monthly_data, a pup with a parseable date but a null
length is counted into its month's bucket and contributes neither its
length nor its weight, so the month's averages divide by a count that
includes it; concretely, a January pup with length 10 and weight 100 plus
a January pup with null length and weight 60 yield count 2, average
length 5 and average weight 50. -/
theorem claim_c10_monthly_null_counted :
    (∀ (md : List (String × Bucket)) (p : SharkPup) (dt : Date),
      parseDate p.date = Option.some dt → p.length = Option.none →
      monthlyStep md p =
        mapAt (ensureMonth md (monthKey dt)) (monthKey dt)
          (fun b => { b with count := b.count + 1 })) ∧
    get_monthly_data [samplePup, pupJanNullLen] = ⟨["2024-01"], [2], [5], [50]⟩ := by
  constructor
  · intro md p dt hparse hlen
    simp [monthlyStep, hparse, hlen]
  · with_unfolding_all rfl

/-- Closed instance of claim C10 at the null-length January pup. -/
theorem claim_c10_monthly_null_counted_witness :
    monthlyStep [] pupJanNullLen =
      mapAt (ensureMonth [] (monthKey ⟨2024, 1, 10⟩)) (monthKey ⟨2024, 1, 10⟩)
        (fun b => { b with count := b.count + 1 }) :=
  claim_c10_monthly_null_counted.1 [] pupJanNullLen ⟨2024, 1, 10⟩ (by rfl) (by rfl)

lemma calc_stats_len_proj (pups : List SharkPup) :
    (calculate_statistics pups).avg_length =
      (if (pups.filterMap (·.length)).isEmpty then 0
       else (pups.filterMap (·.length)).sum / ((pups.filterMap (·.length)).length : ℚ)) ∧
    (calculate_statistics pups).min_length =
      (if (pups.filterMap (·.length)).isEmpty then 0
       else pyListMin (pups.filterMap (·.length))) ∧
    (calculate_statistics pups).max_length =
      (if (pups.filterMap (·.length)).isEmpty then 0
       else pyListMax (pups.filterMap (·.length))) := by
  cases pups with
  | nil => refine ⟨?_, ?_, ?_⟩ <;> rfl
  | cons q qs => exact ⟨rfl, rfl, rfl⟩

lemma calc_stats_wt_proj (pups : List SharkPup) :
    (calculate_statistics pups).avg_weight =
      (if (pups.filterMap (·.weight)).isEmpty then 0
       else (pups.filterMap (·.weight)).sum / ((pups.filterMap (·.weight)).length : ℚ)) ∧
    (calculate_statistics pups).min_weight =
      (if (pups.filterMap (·.weight)).isEmpty then 0
       else pyListMin (pups.filterMap (·.weight))) ∧
    (calculate_statistics pups).max_weight =
      (if (pups.filterMap (·.weight)).isEmpty then 0
       else pyListMax (pups.filterMap (·.weight))) := by
  cases pups with
  | nil => refine ⟨?_, ?_, ?_⟩ <;> rfl
  | cons q qs => exact ⟨rfl, rfl, rfl⟩

lemma calc_stats_append_len_none (pups : List SharkPup) (p : SharkPup)
    (hp : p.length = Option.none) :
    (calculate_statistics (pups ++ [p])).avg_length = (calculate_statistics pups).avg_length ∧
    (calculate_statistics (pups ++ [p])).min_length = (calculate_statistics pups).min_length ∧
    (calculate_statistics (pups ++ [p])).max_length = (calculate_statistics pups).max_length := by
  have hfl : (pups ++ [p]).filterMap (·.length) = pups.filterMap (·.length) := by
    simp [List.filterMap_append, hp]
  obtain ⟨ha, hmi, hma⟩ := calc_stats_len_proj (pups ++ [p])
  obtain ⟨hb, hmi2, hma2⟩ := calc_stats_len_proj pups
  rw [ha, hmi, hma, hb, hmi2, hma2, hfl]
  exact ⟨rfl, rfl, rfl⟩

lemma calc_stats_append_wt_none (pups : List SharkPup) (p : SharkPup)
    (hp : p.weight = Option.none) :
    (calculate_statistics (pups ++ [p])).avg_weight = (calculate_statistics pups).avg_weight ∧
    (calculate_statistics (pups ++ [p])).min_weight = (calculate_statistics pups).min_weight ∧
    (calculate_statistics (pups ++ [p])).max_weight = (calculate_statistics pups).max_weight := by
  have hfw : (pups ++ [p]).filterMap (·.weight) = pups.filterMap (·.weight) := by
    simp [List.filterMap_append, hp]
  obtain ⟨ha, hmi, hma⟩ := calc_stats_wt_proj (pups ++ [p])
  obtain ⟨hb, hmi2, hma2⟩ := calc_stats_wt_proj pups
  rw [ha, hmi, hma, hb, hmi2, hma2, hfw]
  exact ⟨rfl, rfl, rfl⟩

lemma calc_stats_avg_formula (pups : List SharkPup) :
    (calculate_statistics pups).avg_length =
      (if (pups.filterMap (·.length)).isEmpty then 0
       else (pups.filterMap (·.length)).sum / ((pups.filterMap (·.length)).length : ℚ)) ∧
    (calculate_statistics pups).avg_weight =
      (if (pups.filterMap (·.weight)).isEmpty then 0
       else (pups.filterMap (·.weight)).sum / ((pups.filterMap (·.weight)).length : ℚ)) := by
  cases pups with
  | nil => simp [calculate_statistics]
  | cons q qs => exact ⟨rfl, rfl⟩

/-- C6: calculate_statistics computes the average, min and max of length
and of weight only over pups where that field is non-null: a pup with a
null field leaves that field's statistics unchanged, the average is the
sum of the non-null values divided by their number, and the concrete pups
with lengths 10, null, 20 average to 15. -/
theorem claim_c6_stats_exclude_nulls :
    (∀ (pups : List SharkPup) (p : SharkPup), p.length = Option.none →
      (calculate_statistics (pups ++ [p])).avg_length = (calculate_statistics pups).avg_length ∧
      (calculate_statistics (pups ++ [p])).min_length = (calculate_statistics pups).min_length ∧
      (calculate_statistics (pups ++ [p])).max_length = (calculate_statistics pups).max_length) ∧
    (∀ (pups : List SharkPup) (p : SharkPup), p.weight = Option.none →
      (calculate_statistics (pups ++ [p])).avg_weight = (calculate_statistics pups).avg_weight ∧
      (calculate_statistics (pups ++ [p])).min_weight = (calculate_statistics pups).min_weight ∧
      (calculate_statistics (pups ++ [p])).max_weight = (calculate_statistics pups).max_weight) ∧
    (∀ pups : List SharkPup,
      (calculate_statistics pups).avg_length =
        (if (pups.filterMap (·.length)).isEmpty then 0
         else (pups.filterMap (·.length)).sum / ((pups.filterMap (·.length)).length : ℚ)) ∧
      (calculate_statistics pups).avg_weight =
        (if (pups.filterMap (·.weight)).isEmpty then 0
         else (pups.filterMap (·.weight)).sum / ((pups.filterMap (·.weight)).length : ℚ))) ∧
    (calculate_statistics [samplePup, pupLenNone, pupLen20]).avg_length = 15 :=
  ⟨calc_stats_append_len_none, calc_stats_append_wt_none, calc_stats_avg_formula,
   by with_unfolding_all rfl⟩

/-- Closed instance of claim C6: appending a null-length pup and a
null-weight pup leaves the respective statistics unchanged. -/
theorem claim_c6_stats_exclude_nulls_witness :
    ((calculate_statistics [samplePup, pupLenNone]).avg_length =
      (calculate_statistics [samplePup]).avg_length ∧
     (calculate_statistics [samplePup, pupLenNone]).min_length =
      (calculate_statistics [samplePup]).min_length ∧
     (calculate_statistics [samplePup, pupLenNone]).max_length =
      (calculate_statistics [samplePup]).max_length) ∧
    ((calculate_statistics [samplePup, pupWtNone]).avg_weight =
      (calculate_statistics [samplePup]).avg_weight ∧
     (calculate_statistics [samplePup, pupWtNone]).min_weight =
      (calculate_statistics [samplePup]).min_weight ∧
     (calculate_statistics [samplePup, pupWtNone]).max_weight =
      (calculate_statistics [samplePup]).max_weight) :=
  ⟨claim_c6_stats_exclude_nulls.1 [samplePup] pupLenNone (by rfl),
   claim_c6_stats_exclude_nulls.2.1 [samplePup] pupWtNone (by rfl)⟩

/-- C3, counterexample: a measurements file whose content is valid JSON
but holds one malformed record (an empty object) makes get_all_measurements
propagate a KeyError to the caller instead of degrading to a safe result. -/
theorem claim_c3_counterexample :
    get_all_measurements (FileRead.json (J.arr [J.obj []])) =
      Except.error (PyErr.keyError "pup_id") := by
  rfl

lemma get_all_pups_ok (f : FileRead) : ∃ l, get_all_pups f = Except.ok l := by
  cases h : decodeFile f >>= rowsFromJ SharkPup.fromDict with
  | ok l => exact ⟨l, by simp [get_all_pups, h]⟩
  | error e => exact ⟨[], by simp [get_all_pups, h]⟩

lemma get_all_feeding_records_ok (f : FileRead) :
    ∃ l, get_all_feeding_records f = Except.ok l := by
  cases h : decodeFile f >>= rowsFromJ FeedingRecord.fromDict with
  | ok l => exact ⟨l, by simp [get_all_feeding_records, h]⟩
  | error e => exact ⟨[], by simp [get_all_feeding_records, h]⟩

lemma get_all_training_records_ok (f : FileRead) :
    ∃ l, get_all_training_records f = Except.ok l := by
  cases h : decodeFile f >>= rowsFromJ TrainingRecord.fromDict with
  | ok l => exact ⟨l, by simp [get_all_training_records, h]⟩
  | error e => exact ⟨[], by simp [get_all_training_records, h]⟩

lemma get_all_feeding_sessions_ok (f : FileRead) :
    ∃ l, get_all_feeding_sessions f = Except.ok l := by
  cases h : decodeFile f >>= rowsFromJ FeedingSession.fromDict with
  | ok l => exact ⟨l, by simp [get_all_feeding_sessions, h]⟩
  | error e => exact ⟨[], by simp [get_all_feeding_sessions, h]⟩

lemma map_loader_ok {α β : Type} {e : Except PyErr α}
    (h : ∃ x, e = Except.ok x) (g : α → β) : ∃ y, e.map g = Except.ok y := by
  obtain ⟨x, hx⟩ := h
  exact ⟨g x, by rw [hx]; rfl⟩

lemma update_pup_conv_error (pre : List SharkPup) (p : SharkPup)
    (post : List SharkPup) (u : PupUpd) (e : PyErr)
    (hpre : ∀ x ∈ pre, x.id ≠ p.id) (herr : applyPupUpdate p u = .error e) :
    update_pup (pre ++ p :: post) p.id u = (Option.none, pre ++ p :: post) := by
  induction pre with
  | nil => simp [update_pup, herr]
  | cons x xs ih =>
    have hx : x.id ≠ p.id := hpre x (by simp)
    have ih2 := ih (fun y hy => hpre y (by simp [hy]))
    simp [update_pup, hx, ih2]

lemma update_training_conv_error (pre : List TrainingRecord) (r : TrainingRecord)
    (post : List TrainingRecord) (u : TUpd) (e : PyErr)
    (hpre : ∀ x ∈ pre, x.id ≠ r.id) (herr : applyTrainingUpdate r u = .error e) :
    update_training_record (pre ++ r :: post) r.id u = (Option.none, pre ++ r :: post) := by
  induction pre with
  | nil => simp [update_training_record, herr]
  | cons x xs ih =>
    have hx : x.id ≠ r.id := hpre x (by simp)
    have ih2 := ih (fun y hy => hpre y (by simp [hy]))
    simp [update_training_record, hx, ih2]

/-- C3, amended: every storage operation on the pup, feeding-record,
training-record and feeding-session collections degrades failures to its
documented safe result and propagates nothing: for every file state
(missing, undecodable, or any decoded content, malformed records included)
the four loaders return a plain list, and load, add, update, delete,
find-by-id and find-by-foreign-key composed over that state return an
ordinary result; a failing field conversion inside update_pup or
update_training_record is caught and yields None with the collection
unwritten. The measurement collection is the exception the counterexample
forces: its loader degrades to the empty list only on a missing file or
undecodable content, and a malformed measurement record propagates. -/
theorem claim_c3_amended :
    (∀ f : FileRead, ∃ l, get_all_pups f = Except.ok l) ∧
    (∀ f : FileRead, ∃ l, get_all_feeding_records f = Except.ok l) ∧
    (∀ f : FileRead, ∃ l, get_all_training_records f = Except.ok l) ∧
    (∀ f : FileRead, ∃ l, get_all_feeding_sessions f = Except.ok l) ∧
    (∀ (f : FileRead) (p : SharkPup), ∃ r, add_pup_file f p = Except.ok r) ∧
    (∀ (f : FileRead) (r : FeedingRecord), ∃ x, add_feeding_record_file f r = Except.ok x) ∧
    (∀ (f : FileRead) (r : TrainingRecord), ∃ x, add_training_record_file f r = Except.ok x) ∧
    (∀ (f : FileRead) (s : FeedingSession), ∃ x, add_feeding_session_file f s = Except.ok x) ∧
    (∀ (f : FileRead) (pid : Val), ∃ x, get_pup_by_id_file f pid = Except.ok x) ∧
    (∀ (f : FileRead) (rid : Val), ∃ x, get_training_record_by_id_file f rid = Except.ok x) ∧
    (∀ (f : FileRead) (sid : Val), ∃ x, get_feeding_session_by_id_file f sid = Except.ok x) ∧
    (∀ (f : FileRead) (pid : Val), ∃ x, get_feeding_records_by_pup_id_file f pid = Except.ok x) ∧
    (∀ (f : FileRead) (pid : Val), ∃ x, get_training_records_by_pup_id_file f pid = Except.ok x) ∧
    (∀ (f : FileRead) (pid : Val), ∃ x, get_feeding_sessions_by_pup_id_file f pid = Except.ok x) ∧
    (∀ (f : FileRead) (pid : Option ℤ) (u : PupUpd), ∃ x, update_pup_file f pid u = Except.ok x) ∧
    (∀ (f : FileRead) (rid : Option ℤ) (u : TUpd), ∃ x, update_training_record_file f rid u = Except.ok x) ∧
    (∀ (f : FileRead) (sid : Option ℤ) (u : SessionUpd), ∃ x, update_feeding_session_file f sid u = Except.ok x) ∧
    (∀ (f : FileRead) (rid : Option ℤ), ∃ x, delete_training_record_file f rid = Except.ok x) ∧
    (∀ (f : FileRead) (sid : Option ℤ), ∃ x, delete_feeding_session_file f sid = Except.ok x) ∧
    (∀ (pre : List SharkPup) (p : SharkPup) (post : List SharkPup) (u : PupUpd) (e : PyErr),
      (∀ x ∈ pre, x.id ≠ p.id) → applyPupUpdate p u = .error e →
      update_pup (pre ++ p :: post) p.id u = (Option.none, pre ++ p :: post)) ∧
    (∀ (pre : List TrainingRecord) (r : TrainingRecord) (post : List TrainingRecord)
       (u : TUpd) (e : PyErr),
      (∀ x ∈ pre, x.id ≠ r.id) → applyTrainingUpdate r u = .error e →
      update_training_record (pre ++ r :: post) r.id u = (Option.none, pre ++ r :: post)) ∧
    get_all_measurements FileRead.missing = Except.ok [] ∧
    get_all_measurements FileRead.badJSON = Except.ok [] := by
  refine ⟨get_all_pups_ok, get_all_feeding_records_ok, get_all_training_records_ok,
    get_all_feeding_sessions_ok,
    fun f p => map_loader_ok (get_all_pups_ok f) _,
    fun f r => map_loader_ok (get_all_feeding_records_ok f) _,
    fun f r => map_loader_ok (get_all_training_records_ok f) _,
    fun f s => map_loader_ok (get_all_feeding_sessions_ok f) _,
    fun f pid => map_loader_ok (get_all_pups_ok f) _,
    fun f rid => map_loader_ok (get_all_training_records_ok f) _,
    fun f sid => map_loader_ok (get_all_feeding_sessions_ok f) _,
    fun f pid => map_loader_ok (get_all_feeding_records_ok f) _,
    fun f pid => map_loader_ok (get_all_training_records_ok f) _,
    fun f pid => map_loader_ok (get_all_feeding_sessions_ok f) _,
    fun f pid u => map_loader_ok (get_all_pups_ok f) _,
    fun f rid u => map_loader_ok (get_all_training_records_ok f) _,
    fun f sid u => map_loader_ok (get_all_feeding_sessions_ok f) _,
    fun f rid => map_loader_ok (get_all_training_records_ok f) _,
    fun f sid => map_loader_ok (get_all_feeding_sessions_ok f) _,
    update_pup_conv_error, update_training_conv_error, rfl, rfl⟩

/-- Closed instance of claim C3: an unparseable length and an unparseable
duration are caught inside the updates, which return None and leave the
collections unchanged instead of raising. -/
theorem claim_c3_amended_witness :
    update_pup [pupId1] (Option.some 1) pupUpdBadLen = (Option.none, [pupId1]) ∧
    update_training_record [trainRec1] (Option.some 1) tUpdBadDur =
      (Option.none, [trainRec1]) :=
  ⟨claim_c3_amended.2.2.2.2.2.2.2.2.2.2.2.2.2.2.2.2.2.2.2.1
     [] pupId1 [] pupUpdBadLen PyErr.valueError (by simp)
     (by with_unfolding_all rfl),
   claim_c3_amended.2.2.2.2.2.2.2.2.2.2.2.2.2.2.2.2.2.2.2.2.1
     [] trainRec1 [] tUpdBadDur PyErr.valueError (by simp)
     (by with_unfolding_all rfl)⟩

lemma getAttr_setAttr_ne (m : MeasurementObj) (k' k : MKey) (v : Val)
    (h : k' ≠ k) : getAttr (setAttr m k' v) k = getAttr m k := by
  cases k' <;> cases k <;> simp_all [setAttr, getAttr]

lemma applyMeasUpdates_frame (m : MeasurementObj) (upd : List (MKey × Val))
    (k : MKey) (h : ∀ v, (k, v) ∉ upd) :
    getAttr (applyMeasUpdates m upd) k = getAttr m k := by
  induction upd generalizing m with
  | nil => rfl
  | cons kv rest ih =>
    have hk : kv.1 ≠ k := by
      intro he
      exact h kv.2 (by simp [← he])
    have hrest : ∀ v, (k, v) ∉ rest := fun v hv => h v (by simp [hv])
    calc getAttr (applyMeasUpdates m (kv :: rest)) k
        = getAttr (applyMeasUpdates (setAttr m kv.1 kv.2) rest) k := rfl
      _ = getAttr (setAttr m kv.1 kv.2) k := ih _ hrest
      _ = getAttr m k := getAttr_setAttr_ne _ _ _ _ hk

/-- C5, counterexample: update_measurement performs no blank-string
normalization; supplying an empty string for the optional weight field
stores the empty string verbatim instead of None. -/
theorem claim_c5_counterexample :
    (update_measurement [measObj1] (Val.str "1") [(MKey.kweight, Val.str "")]).2 =
      [{ measObj1 with weight := Val.str "" }] ∧
    Val.str "" ≠ Val.none := by
  with_unfolding_all exact ⟨rfl, by simp⟩

/-- C5, amended: every update applies only the fields present in the
update mapping (sparse patch, absent fields keep their prior values);
blank strings are normalized to None only by update_pup and only for
length, weight, date_of_birth, mother_id and sex, while
update_measurement assigns every supplied value verbatim. -/
theorem claim_c5_amended :
    (∀ (p : SharkPup) (u : PupUpd) (p' : SharkPup), applyPupUpdate p u = .ok p' →
      (u PupKey.kdate = Option.none → p'.date = p.date) ∧
      (u PupKey.kname = Option.none → p'.name = p.name) ∧
      (u PupKey.klength = Option.none → p'.length = p.length) ∧
      (u PupKey.kweight = Option.none → p'.weight = p.weight) ∧
      (u PupKey.knotes = Option.none → p'.notes = p.notes) ∧
      (u PupKey.kdate_of_birth = Option.none → p'.date_of_birth = p.date_of_birth) ∧
      (u PupKey.kmother_id = Option.none → p'.mother_id = p.mother_id) ∧
      (u PupKey.kstatus = Option.none → p'.status = p.status) ∧
      (u PupKey.ksex = Option.none → p'.sex = p.sex) ∧
      p'.id = p.id ∧ p'.researcher = p.researcher ∧ p'.created_at = p.created_at) ∧
    (∀ (p : SharkPup) (u : PupUpd) (p' : SharkPup), applyPupUpdate p u = .ok p' →
      (u PupKey.klength = Option.some "" → p'.length = Option.none) ∧
      (u PupKey.kweight = Option.some "" → p'.weight = Option.none) ∧
      (u PupKey.kdate_of_birth = Option.some "" → p'.date_of_birth = Option.none) ∧
      (u PupKey.kmother_id = Option.some "" → p'.mother_id = Option.none) ∧
      (u PupKey.ksex = Option.some "" → p'.sex = Option.none)) ∧
    (∀ (m : MeasurementObj) (upd : List (MKey × Val)) (k : MKey),
      (∀ v, (k, v) ∉ upd) → getAttr (applyMeasUpdates m upd) k = getAttr m k) ∧
    (∀ (m : MeasurementObj) (v : Val),
      (applyMeasUpdates m [(MKey.kweight, v)]).weight = v) ∧
    (∀ (p : SharkPup) (rest : List SharkPup) (u : PupUpd) (p' : SharkPup),
      applyPupUpdate p u = .ok p' →
      update_pup (p :: rest) p.id u = (Option.some p', p' :: rest)) := by
  refine ⟨?_, ?_, applyMeasUpdates_frame, fun m v => rfl, ?_⟩
  · intro p u p' h
    simp only [applyPupUpdate, bind, Except.bind] at h
    cases hlen : assignFloat p.length (u PupKey.klength) with
    | error e => rw [hlen] at h; exact absurd h (by simp)
    | ok len =>
      rw [hlen] at h
      cases hwt : assignFloat p.weight (u PupKey.kweight) with
      | error e => rw [hwt] at h; exact absurd h (by simp)
      | ok wt =>
        rw [hwt] at h
        simp only [pure, Except.pure, Except.ok.injEq] at h
        subst h
        refine ⟨?_, ?_, ?_, ?_, ?_, ?_, ?_, ?_, ?_, rfl, rfl, rfl⟩ <;> intro hk
        · simp [assignStr, hk]
        · simp [assignStr, hk]
        · rw [hk] at hlen; simpa [assignFloat] using hlen.symm
        · rw [hk] at hwt; simpa [assignFloat] using hwt.symm
        · simp [assignNotes, hk]
        · simp [assignOptNorm, hk]
        · simp [assignOptNorm, hk]
        · simp [assignStr, hk]
        · simp [assignOptNorm, hk]
  · intro p u p' h
    simp only [applyPupUpdate, bind, Except.bind] at h
    cases hlen : assignFloat p.length (u PupKey.klength) with
    | error e => rw [hlen] at h; exact absurd h (by simp)
    | ok len =>
      rw [hlen] at h
      cases hwt : assignFloat p.weight (u PupKey.kweight) with
      | error e => rw [hwt] at h; exact absurd h (by simp)
      | ok wt =>
        rw [hwt] at h
        simp only [pure, Except.pure, Except.ok.injEq] at h
        subst h
        refine ⟨?_, ?_, ?_, ?_, ?_⟩ <;> intro hk
        · rw [hk] at hlen; simpa [assignFloat] using hlen.symm
        · rw [hk] at hwt; simpa [assignFloat] using hwt.symm
        · simp [assignOptNorm, hk]
        · simp [assignOptNorm, hk]
        · simp [assignOptNorm, hk]
  · intro p rest u p' h
    simp [update_pup, h]

/-- Closed instance of claim C5: a blank sex is normalized to None while
the absent name field keeps its prior value, and a measurement setattr
stores the supplied value verbatim while untouched attributes keep their
prior values. -/
theorem claim_c5_amended_witness :
    pupSexNone.name = samplePup.name ∧
    pupSexNone.sex = Option.none ∧
    (applyMeasUpdates measObj1 [(MKey.kweight, Val.num 7)]).weight = Val.num 7 ∧
    getAttr (applyMeasUpdates measObj1 [(MKey.kweight, Val.num 7)]) MKey.knotes =
      getAttr measObj1 MKey.knotes :=
  ⟨(claim_c5_amended.1 samplePup pupUpdSexBlank pupSexNone (by rfl)).2.1 rfl,
   ((claim_c5_amended.2.1 samplePup pupUpdSexBlank pupSexNone (by rfl)).2.2.2.2) rfl,
   claim_c5_amended.2.2.2.1 measObj1 (Val.num 7),
   claim_c5_amended.2.2.1 measObj1 [(MKey.kweight, Val.num 7)] MKey.knotes
     (by intro v hv; simp at hv)⟩

lemma idEqVal_str (o : Option ℤ) (s : String) : idEqVal o (Val.str s) = false := by
  cases o <;> rfl

lemma strIdEqVal_num (o : Option String) (q : ℚ) :
    strIdEqVal o (Val.num q) = false := by
  cases o <;> rfl

/-- C8, counterexample: a training record stored with the integer id 1 is
found when queried with the integer 1 but not when queried with the string
form of the same id, so the training-record lookup does not use
string-normalized comparison. -/
theorem claim_c8_counterexample :
    get_training_record_by_id [trainRec1] (Val.num 1) = Option.some trainRec1 ∧
    get_training_record_by_id [trainRec1] (Val.str "1") = Option.none := by
  with_unfolding_all exact ⟨rfl, rfl⟩

/-- C8, amended: only get_pup_by_id compares ids as strings, so a pup
lookup succeeds identically for the int and the string form of an id; the
training-record, feeding-session and measurement lookups use plain Python
equality, under which a string query never matches a stored integer id and
an integer query never matches a stored string id. -/
theorem claim_c8_amended :
    (∀ (pups : List SharkPup) (n : ℤ),
      get_pup_by_id pups (Val.num (n : ℚ)) = get_pup_by_id pups (Val.str (toString n))) ∧
    (∀ (rs : List TrainingRecord) (s : String),
      get_training_record_by_id rs (Val.str s) = Option.none) ∧
    (∀ (ss : List FeedingSession) (s : String),
      get_feeding_session_by_id ss (Val.str s) = Option.none) ∧
    (∀ (ms : List MeasurementRecord) (n : ℤ),
      get_measurement_by_id ms (Val.num (n : ℚ)) = Option.none) := by
  refine ⟨?_, ?_, ?_, ?_⟩
  · intro pups n
    have hs : strOfVal (Val.num (n : ℚ)) = toString n := by
      simp [strOfVal, Rat.den_intCast, Rat.num_intCast]
    simp [get_pup_by_id, strOfVal, hs]
  · intro rs s
    rw [get_training_record_by_id, List.find?_eq_none]
    intro r _
    simp [idEqVal_str]
  · intro ss s
    rw [get_feeding_session_by_id, List.find?_eq_none]
    intro r _
    simp [idEqVal_str]
  · intro ms n
    rw [get_measurement_by_id, List.find?_eq_none]
    intro r _
    simp [strIdEqVal_num]

lemma mem_of_head?_eq {α : Type} {l : List α} {a : α}
    (h : l.head? = Option.some a) : a ∈ l := by
  cases l with
  | nil => simp at h
  | cons x xs =>
    simp only [List.head?_cons, Option.some.injEq] at h
    subst h
    exact List.mem_cons_self _ _

lemma mem_of_getLast?_eq {α : Type} {l : List α} {a : α}
    (h : l.getLast? = Option.some a) : a ∈ l := by
  have hx : a ∈ l.getLast? := by simp [h, Option.mem_def]
  obtain ⟨hne, heq⟩ := List.mem_getLast?_eq_getLast hx
  rw [heq]
  exact List.getLast_mem hne

lemma growth_weight_stats (ms : List MeasurementRecord) :
    (get_growth_statistics ms).weight_stats = fieldStats ms (·.weight) := by
  cases ms with
  | nil => rfl
  | cons m rest => rfl

lemma growth_length_stats (ms : List MeasurementRecord) :
    (get_growth_statistics ms).length_stats = fieldStats ms (·.length) := by
  cases ms with
  | nil => rfl
  | cons m rest => rfl

lemma fieldStats_growth_le_one (ms : List MeasurementRecord)
    (f : MeasurementRecord → Option ℚ) (h : (ms.filterMap f).length ≤ 1) :
    (fieldStats ms f).growth_rate = Option.none := by
  have h2 : ¬ (2 ≤ (ms.filterMap f).length) := by omega
  by_cases h0 : (ms.filterMap f).isEmpty
  · simp [fieldStats, h0]
  · simp [fieldStats, h0, h2]

lemma growthRateOfSorted_const_date (sorted : List MeasurementRecord)
    (f : MeasurementRecord → Option ℚ) (s : String)
    (hmem : ∀ m ∈ sorted, m.date = s) :
    growthRateOfSorted sorted f = Option.none := by
  unfold growthRateOfSorted
  cases hh : sorted.head? with
  | none => rfl
  | some first =>
    cases hl : sorted.getLast? with
    | none => rfl
    | some last =>
      have hf : first.date = s := hmem _ (mem_of_head?_eq hh)
      have hla : last.date = s := hmem _ (mem_of_getLast?_eq hl)
      cases hp : parseDate s with
      | none => simp [hf, hla, hp]
      | some d => simp [hf, hla, hp]

lemma growthRate_const_date (ms : List MeasurementRecord)
    (f : MeasurementRecord → Option ℚ) (s : String)
    (h : ∀ m ∈ ms, (f m).isSome → m.date = s) :
    growthRate ms f = Option.none := by
  refine growthRateOfSorted_const_date _ f s ?_
  intro m hm
  rw [List.mem_insertionSort] at hm
  have h2 := List.mem_filter.mp hm
  exact h m h2.1 (by simpa using h2.2)

lemma fieldStats_growth_of_two (ms : List MeasurementRecord)
    (f : MeasurementRecord → Option ℚ) (h2 : 2 ≤ (ms.filterMap f).length) :
    (fieldStats ms f).growth_rate = growthRate ms f := by
  have h0 : (ms.filterMap f).isEmpty = false := by
    cases hl : ms.filterMap f with
    | nil => rw [hl] at h2; simp at h2
    | cons a as => rfl
  simp [fieldStats, h0, h2]

lemma growthRateOfSorted_endpoints (sorted : List MeasurementRecord)
    (f : MeasurementRecord → Option ℚ) (first last : MeasurementRecord)
    (d1 d2 : Date)
    (hh : sorted.head? = Option.some first)
    (hl : sorted.getLast? = Option.some last)
    (hp1 : parseDate first.date = Option.some d1)
    (hp2 : parseDate last.date = Option.some d2) :
    growthRateOfSorted sorted f =
      (if 0 < ordinalDay d2 - ordinalDay d1 then
        Option.some (((f last).getD 0 - (f first).getD 0) /
          ((ordinalDay d2 - ordinalDay d1 : ℤ) : ℚ))
       else Option.none) := by
  unfold growthRateOfSorted
  rw [hh, hl]
  simp only [hp1, hp2]

lemma fieldStats_growth_const_date (ms : List MeasurementRecord)
    (f : MeasurementRecord → Option ℚ) (s : String)
    (h : ∀ m ∈ ms, (f m).isSome → m.date = s) :
    (fieldStats ms f).growth_rate = Option.none := by
  have hg := growthRate_const_date ms f s h
  by_cases h0 : (ms.filterMap f).isEmpty
  · simp [fieldStats, h0]
  · by_cases h2 : 2 ≤ (ms.filterMap f).length
    · simp [fieldStats, h0, h2, hg]
    · simp [fieldStats, h0, h2]

/-- C2, counterexample: with valid but non-zero-padded dates the string
sort used by the code disagrees with chronological order. September 1st
written 2024-9-01 sorts after October 1st written 2024-10-01, so the code
takes the October record as first, computes a negative day span, and
reports None — although the collection holds two non-null dated weights
whose chronologically earliest and latest dates lie 30 days apart, where
the claim requires rate (200 - 100) / 30. -/
theorem claim_c2_counterexample :
    parseDate measSep.date = Option.some ⟨2024, 9, 1⟩ ∧
    parseDate measOct.date = Option.some ⟨2024, 10, 1⟩ ∧
    ordinalDay ⟨2024, 10, 1⟩ - ordinalDay ⟨2024, 9, 1⟩ = 30 ∧
    [measSep, measOct].filterMap (·.weight) = [100, 200] ∧
    (get_growth_statistics [measSep, measOct]).weight_stats.growth_rate = Option.none ∧
    (get_growth_statistics [measSep, measOct]).weight_stats.growth_rate ≠
      Option.some ((200 - 100 : ℚ) / 30) := by
  have hnone : (get_growth_statistics [measSep, measOct]).weight_stats.growth_rate =
      Option.none := by
    with_unfolding_all rfl
  refine ⟨rfl, rfl, by decide, rfl, hnone, ?_⟩
  rw [hnone]
  simp

/-- C2, amended: for every collection of measurements, the growth rate of
weight (and independently length) is computed from the endpoints of the
non-null dated values sorted by the raw date string: with at least two
non-null values and parseable endpoint dates the rate equals (last value
minus first value) divided by the day span when that span is positive, and
is None otherwise; with at most one non-null value, or when every non-null
value carries one date, the rate is None — never zero and never infinity.
For canonically zero-padded dates the string order is the chronological
order, so the endpoints are the calendar earliest and latest: weights 1000
on 2024-01-01 and 1200 on 2024-01-11 yield rate 20. -/
theorem claim_c2_amended :
    ((get_growth_statistics [meas1, meas2]).weight_stats.growth_rate = Option.some 20) ∧
    (∀ ms : List MeasurementRecord, (ms.filterMap (·.weight)).length ≤ 1 →
      (get_growth_statistics ms).weight_stats.growth_rate = Option.none) ∧
    (∀ (ms : List MeasurementRecord) (s : String),
      (∀ m ∈ ms, m.weight ≠ Option.none → m.date = s) →
      (get_growth_statistics ms).weight_stats.growth_rate = Option.none) ∧
    (∀ ms : List MeasurementRecord, (ms.filterMap (·.length)).length ≤ 1 →
      (get_growth_statistics ms).length_stats.growth_rate = Option.none) ∧
    (∀ (ms : List MeasurementRecord) (s : String),
      (∀ m ∈ ms, m.length ≠ Option.none → m.date = s) →
      (get_growth_statistics ms).length_stats.growth_rate = Option.none) ∧
    (∀ (ms : List MeasurementRecord) (first last : MeasurementRecord) (d1 d2 : Date),
      2 ≤ (ms.filterMap (·.weight)).length →
      (List.insertionSort (fun a b => a.date ≤ b.date)
        (ms.filter (fun m => m.weight.isSome))).head? = Option.some first →
      (List.insertionSort (fun a b => a.date ≤ b.date)
        (ms.filter (fun m => m.weight.isSome))).getLast? = Option.some last →
      parseDate first.date = Option.some d1 →
      parseDate last.date = Option.some d2 →
      (get_growth_statistics ms).weight_stats.growth_rate =
        (if 0 < ordinalDay d2 - ordinalDay d1 then
          Option.some ((last.weight.getD 0 - first.weight.getD 0) /
            ((ordinalDay d2 - ordinalDay d1 : ℤ) : ℚ))
         else Option.none)) ∧
    (∀ (ms : List MeasurementRecord) (first last : MeasurementRecord) (d1 d2 : Date),
      2 ≤ (ms.filterMap (·.length)).length →
      (List.insertionSort (fun a b => a.date ≤ b.date)
        (ms.filter (fun m => m.length.isSome))).head? = Option.some first →
      (List.insertionSort (fun a b => a.date ≤ b.date)
        (ms.filter (fun m => m.length.isSome))).getLast? = Option.some last →
      parseDate first.date = Option.some d1 →
      parseDate last.date = Option.some d2 →
      (get_growth_statistics ms).length_stats.growth_rate =
        (if 0 < ordinalDay d2 - ordinalDay d1 then
          Option.some ((last.length.getD 0 - first.length.getD 0) /
            ((ordinalDay d2 - ordinalDay d1 : ℤ) : ℚ))
         else Option.none)) := by
  refine ⟨by with_unfolding_all rfl, ?_, ?_, ?_, ?_, ?_, ?_⟩
  · intro ms h
    rw [growth_weight_stats]
    exact fieldStats_growth_le_one ms _ h
  · intro ms s h
    rw [growth_weight_stats]
    refine fieldStats_growth_const_date ms _ s ?_
    intro m hm hsome
    exact h m hm (by simpa [Option.isSome_iff_ne_none] using hsome)
  · intro ms h
    rw [growth_length_stats]
    exact fieldStats_growth_le_one ms _ h
  · intro ms s h
    rw [growth_length_stats]
    refine fieldStats_growth_const_date ms _ s ?_
    intro m hm hsome
    exact h m hm (by simpa [Option.isSome_iff_ne_none] using hsome)
  · intro ms first last d1 d2 h2 hh hl hp1 hp2
    rw [growth_weight_stats, fieldStats_growth_of_two ms _ h2]
    exact growthRateOfSorted_endpoints _ _ first last d1 d2 hh hl hp1 hp2
  · intro ms first last d1 d2 h2 hh hl hp1 hp2
    rw [growth_length_stats, fieldStats_growth_of_two ms _ h2]
    exact growthRateOfSorted_endpoints _ _ first last d1 d2 hh hl hp1 hp2

/-- Closed instance of claim C2: one measurement gives no weight growth
rate, two same-day measurements give no weight growth rate, and the
endpoint formula applied at the canonical two-measurement collection
reproduces its growth rate. -/
theorem claim_c2_amended_witness :
    (get_growth_statistics [meas1]).weight_stats.growth_rate = Option.none ∧
    (get_growth_statistics [meas1, meas2Same]).weight_stats.growth_rate = Option.none ∧
    (get_growth_statistics [meas1, meas2]).weight_stats.growth_rate =
      (if 0 < ordinalDay ⟨2024, 1, 11⟩ - ordinalDay ⟨2024, 1, 1⟩ then
        Option.some ((meas2.weight.getD 0 - meas1.weight.getD 0) /
          ((ordinalDay ⟨2024, 1, 11⟩ - ordinalDay ⟨2024, 1, 1⟩ : ℤ) : ℚ))
       else Option.none) :=
  ⟨claim_c2_amended.2.1 [meas1] (by with_unfolding_all decide),
   claim_c2_amended.2.2.1 [meas1, meas2Same] "2024-01-01"
     (by
       intro m hm _
       simp only [List.mem_cons, List.not_mem_nil, or_false] at hm
       rcases hm with rfl | rfl <;> rfl),
   claim_c2_amended.2.2.2.2.2.1 [meas1, meas2] meas1 meas2 ⟨2024, 1, 1⟩ ⟨2024, 1, 11⟩
     (by with_unfolding_all decide) (by with_unfolding_all rfl)
     (by with_unfolding_all rfl) (by rfl) (by rfl)⟩

lemma foldMax_ge (l : List (String × ℚ)) (b : ℚ) : b ≤ foldMax l b := by
  induction l with
  | nil => simp [foldMax]
  | cons e rest ih =>
    exact le_trans ih (le_max_right _ _)

lemma foldMax_mono (l : List (String × ℚ)) {b b' : ℚ} (h : b ≤ b') :
    foldMax l b ≤ foldMax l b' := by
  induction l with
  | nil => exact h
  | cons e rest ih =>
    exact max_le_max le_rfl ih

lemma mem_le_foldMax (l : List (String × ℚ)) (b : ℚ) :
    ∀ e ∈ l, e.2 ≤ foldMax l b := by
  induction l with
  | nil => simp
  | cons e' rest ih =>
    intro e he
    rcases List.mem_cons.mp he with rfl | he2
    · exact le_max_left _ _
    · exact le_trans (ih e he2) (le_max_right _ _)

lemma foldMax_cases (l : List (String × ℚ)) (b : ℚ) :
    foldMax l b = b ∨ ∃ e ∈ l, foldMax l b = e.2 := by
  induction l with
  | nil => exact Or.inl rfl
  | cons e rest ih =>
    rcases max_choice e.2 (foldMax rest b) with h | h
    · exact Or.inr ⟨e, by simp, h⟩
    · rcases ih with h2 | ⟨e', he', h2⟩
      · exact Or.inl (h.trans h2)
      · exact Or.inr ⟨e', List.mem_cons_of_mem _ he', h.trans h2⟩

lemma pickMostCommon_spec (l : List (String × ℚ)) :
    ∀ (best : String) (mx : ℚ),
      pickMostCommon best mx l =
        if mx < foldMax l mx then firstAttain l (foldMax l mx) best else best := by
  induction l with
  | nil =>
    intro best mx
    simp [pickMostCommon, foldMax]
  | cons e rest ih =>
    obtain ⟨t, a⟩ := e
    intro best mx
    simp only [pickMostCommon]
    by_cases hta : mx < a
    · rw [if_pos hta, ih t a]
      by_cases h2 : a < foldMax rest a
      · rw [if_pos h2]
        have hRa : ∃ e' ∈ rest, foldMax rest a = e'.2 := by
          rcases foldMax_cases rest a with h3 | h3
          · exact absurd h3 (by intro hc; rw [hc] at h2; exact lt_irrefl a h2)
          · exact h3
        have hle1 : foldMax rest a ≤ foldMax rest mx := by
          obtain ⟨e', he', heq⟩ := hRa
          rw [heq]
          exact mem_le_foldMax rest mx e' he'
        have hEq : foldMax rest a = foldMax rest mx :=
          le_antisymm hle1 (foldMax_mono rest (le_of_lt hta))
        have hM : foldMax ((t, a) :: rest) mx = foldMax rest a := by
          show max a (foldMax rest mx) = foldMax rest a
          rw [← hEq]
          exact max_eq_right (le_of_lt h2)
        rw [hM, if_pos (lt_trans hta h2)]
        have hfind : (rest.find? (fun e => e.2 = foldMax rest a)).isSome := by
          rw [List.find?_isSome]
          obtain ⟨e', he', heq⟩ := hRa
          exact ⟨e', he', by simp [heq]⟩
        obtain ⟨w, hw⟩ := Option.isSome_iff_exists.mp hfind
        have hne : (a = foldMax rest a) = False := by
          simp [ne_of_lt h2]
        simp [firstAttain, List.find?_cons, hne, hw]
      · have hRa : foldMax rest a = a := le_antisymm (not_lt.mp h2) (foldMax_ge rest a)
        rw [if_neg h2]
        have hRmx : foldMax rest mx ≤ a := by
          rcases foldMax_cases rest mx with h3 | h3
          · rw [h3]; exact le_of_lt hta
          · obtain ⟨e', he', heq⟩ := h3
            rw [heq]
            have := mem_le_foldMax rest a e' he'
            rw [hRa] at this
            exact this
        have hM : foldMax ((t, a) :: rest) mx = a := by
          show max a (foldMax rest mx) = a
          exact max_eq_left hRmx
        rw [hM, if_pos hta]
        simp [firstAttain, List.find?_cons]
    · rw [if_neg hta, ih best mx]
      have hae : a ≤ mx := not_lt.mp hta
      have hrm : foldMax ((t, a) :: rest) mx = foldMax rest mx := by
        show max a (foldMax rest mx) = foldMax rest mx
        exact max_eq_right (le_trans hae (foldMax_ge rest mx))
      rw [hrm]
      by_cases h2 : mx < foldMax rest mx
      · rw [if_pos h2, if_pos h2]
        have hne : (a = foldMax rest mx) = False := by
          simp [ne_of_lt (lt_of_le_of_lt hae h2)]
        simp [firstAttain, List.find?_cons, hne]
      · rw [if_neg h2, if_neg h2]

/-- C7, counterexample: a non-empty session list whose only food item has
amount 0 has A as its sole (hence largest-summed) food type, yet
most_common_food is reported as the sentinel None, because the selection
loop only replaces the sentinel on a strictly positive amount. -/
theorem claim_c7_counterexample :
    (get_feeding_statistics [sessionZero]).food_types = [("A", 0)] ∧
    (get_feeding_statistics [sessionZero]).most_common_food = "None" ∧
    (get_feeding_statistics [sessionZero]).most_common_food ≠ "A" := by
  refine ⟨?_, ?_, ?_⟩
  · with_unfolding_all rfl
  · with_unfolding_all rfl
  · with_unfolding_all decide

/-- C7, amended: for a non-empty session list, most_common_food is the
first-encountered food type whose summed amount equals the maximum summed
amount, provided that maximum is strictly positive; when every summed
amount is at most 0 (or there are no food items) the sentinel None is
reported instead. Ranking is by summed amount, never occurrence count:
food items A 5, B 12, A 3 yield B. -/
theorem claim_c7_amended :
    (∀ sessions : List FeedingSession, sessions ≠ [] →
      (get_feeding_statistics sessions).most_common_food =
        (if 0 < foldMax (foodTypeAmounts sessions) 0 then
          firstAttain (foodTypeAmounts sessions) (foldMax (foodTypeAmounts sessions) 0) "None"
         else "None")) ∧
    (get_feeding_statistics [sessionAB]).most_common_food = "B" := by
  constructor
  · intro sessions hne
    have hE : sessions.isEmpty = false := by
      simpa [List.isEmpty_iff] using hne
    simp only [get_feeding_statistics, hE, Bool.false_eq_true, if_false]
    exact pickMostCommon_spec (foodTypeAmounts sessions) "None" 0
  · with_unfolding_all rfl

/-- Closed instance of claim C7 at the zero-amount session list. -/
theorem claim_c7_amended_witness :
    (get_feeding_statistics [sessionZero]).most_common_food =
      (if 0 < foldMax (foodTypeAmounts [sessionZero]) 0 then
        firstAttain (foodTypeAmounts [sessionZero]) (foldMax (foodTypeAmounts [sessionZero]) 0) "None"
       else "None") :=
  claim_c7_amended.1 [sessionZero] (by simp)

end SharkTracker
